import Mathlib

/-!
# signaturegen: canonicalisation and signing engine

A shallow embedding of `signer.go`, `utils.go` and `models.go`.

* A Go `string` and a Go `[]byte` are both lists of byte values (`Bytes`); the
  conversions `[]byte(s)` and `string(b)` are the identity.
* A Go result pair `(v, err)` is a Lean pair whose second component is
  `Option GoError` (`none` is the `nil` error); a pointer result is an `Option`.
* The standard-library functions with a simple closed definition
  (`strings.Join`, `strings.ToLower`, `hex.EncodeToString`,
  `base64.StdEncoding.EncodeToString`, `json.Compact`, `Time.Format`) are
  transcribed; the cryptographic and parsing primitives (`sha256`, HMAC-SHA512,
  `rsa.SignPKCS1v15`, `pem.Decode`, `x509.ParsePKCS8PrivateKey`,
  `json.Marshal`) are the fields of the record `Lib`, over which every theorem
  is quantified.
* The wall clock and the random source are explicit arguments.
-/

namespace SignatureGen

/-! ## Bytes and errors -/

/-- A byte value; arithmetic that depends on the width reduces modulo 256. -/
abbrev Byte := Nat

/-- The contents of a Go `string` or `[]byte`. -/
abbrev Bytes := List Nat

/-- The bytes of an ASCII literal of the program text. -/
def str (s : String) : Bytes := s.toList.map Char.toNat

/-- Go `error` values that the program creates or passes on. -/
inductive GoError where
  /-- Value of `errors.New(msg)`. -/
  | errorString (msg : String)
  /-- A `*json.SyntaxError`: the offending byte (`none` at end of input) and the
  context text of the message. -/
  | syntaxError (invalid : Option Nat) (context : String)
  /-- Any other error produced inside the standard library. -/
  | library (msg : String)
  deriving DecidableEq, Repr

/-! ## `strings` -/

/-- Go `strings.Join(elems, sep)`. -/
def stringsJoin : List Bytes → Bytes → Bytes
  | [], _ => []
  | [a], _ => a
  | a :: b :: rest, sep => a ++ sep ++ stringsJoin (b :: rest) sep

/-- One byte of the ASCII branch of `strings.ToLower`: `c += 'a' - 'A'` for
`'A' <= c && c <= 'Z'`. -/
def asciiLower (c : Nat) : Nat :=
  if 65 ≤ c ∧ c ≤ 90 then c + 32 else c

/-- Go `strings.ToLower`. A string whose bytes are all below `utf8.RuneSelf`
(`0x80`) is lower-cased byte by byte; any other string goes through
`strings.Map(unicode.ToLower, s)`, which is the argument `unicodeLower`. -/
def stringsToLower (unicodeLower : Bytes → Bytes) (s : Bytes) : Bytes :=
  if s.all (fun c => decide (c < 128)) then s.map asciiLower else unicodeLower s

/-! ## `encoding/hex` and `encoding/base64` -/

/-- The table `"0123456789abcdef"` of `encoding/hex`, indexed by a nibble. -/
def hextable (n : Nat) : Nat :=
  if n % 16 < 10 then 48 + n % 16 else 87 + n % 16

/-- Go `hex.EncodeToString`: `hextable[v>>4]`, `hextable[v&0x0f]` per byte. -/
def hexEncodeToString : Bytes → Bytes
  | [] => []
  | v :: rest => hextable (v % 256 / 16) :: hextable (v % 16) :: hexEncodeToString rest

/-- The standard base64 alphabet `A-Z a-z 0-9 + /`, indexed by a 6-bit value. -/
def encodeStd (n : Nat) : Nat :=
  let v := n % 64
  if v < 26 then 65 + v
  else if v < 52 then 97 + (v - 26)
  else if v < 62 then 48 + (v - 52)
  else if v = 62 then 43
  else 47

/-- Go `base64.StdEncoding.EncodeToString`: three source bytes give four
characters; a remainder of one or two bytes is padded with `=`. -/
def base64EncodeToString : Bytes → Bytes
  | [] => []
  | [a] =>
    let v := (a % 256) * 65536
    [encodeStd (v / 262144), encodeStd (v / 4096), 61, 61]
  | [a, b] =>
    let v := (a % 256) * 65536 + (b % 256) * 256
    [encodeStd (v / 262144), encodeStd (v / 4096), encodeStd (v / 64), 61]
  | a :: b :: c :: rest =>
    let v := (a % 256) * 65536 + (b % 256) * 256 + c % 256
    encodeStd (v / 262144) :: encodeStd (v / 4096) :: encodeStd (v / 64) :: encodeStd v ::
      base64EncodeToString rest

/-! ## `time` -/

/-- A `time.Time` as the calendar fields `Format` reads: the civil date and
clock in the value's zone, and the zone offset in seconds east of UTC. -/
structure Time where
  year : Int
  month : Nat
  day : Nat
  hour : Nat
  minute : Nat
  second : Nat
  nanosecond : Nat
  offset : Int
  deriving DecidableEq, Repr

/-- The decimal digits of `u`, most significant first. -/
def decimalDigits (u : Nat) : Bytes := (Nat.toDigits 10 u).map Char.toNat

/-- Go `time.appendInt(b, x, width)`: a minus sign for a negative `x`, then the
decimal digits of `|x|` left-padded with zeros to at least `width`. -/
def appendInt (b : Bytes) (x : Int) (width : Nat) : Bytes :=
  let u := x.natAbs
  let ds := decimalDigits u
  let sign : Bytes := if x < 0 then [45] else []
  b ++ sign ++ List.replicate (width - ds.length) 48 ++ ds

/-- Go `Time.Format` for the layout `"2006-01-02T15:04:05.000-07:00"`: year,
month, day, hour, minute, second, the millisecond fraction (`stdFracSecond0`
with three digits) and the numeric zone (`stdNumColonTZ`, which has no `Z`
form). Go's integer `/` and `%` truncate toward zero. -/
def formatISOMillis (t : Time) : Bytes :=
  let b := appendInt [] t.year 4
  let b := appendInt (b ++ [45]) (t.month : Int) 2
  let b := appendInt (b ++ [45]) (t.day : Int) 2
  let b := appendInt (b ++ [84]) (t.hour : Int) 2
  let b := appendInt (b ++ [58]) (t.minute : Int) 2
  let b := appendInt (b ++ [58]) (t.second : Int) 2
  let b := appendInt (b ++ [46]) ((t.nanosecond / 1000000 : Nat) : Int) 3
  let zone := Int.tdiv t.offset 60
  let b := if zone < 0 then b ++ [45] else b ++ [43]
  let zone := if zone < 0 then -zone else zone
  let b := appendInt b (Int.tdiv zone 60) 2
  appendInt (b ++ [58]) (Int.tmod zone 60) 2

/-! ## `encoding/json`: the scanner and `Compact` -/

/-- The values of the scanner's `step` field: the state functions of
`encoding/json/scanner.go`. -/
inductive StepFn where
  | stateBeginValueOrEmpty | stateBeginValue | stateBeginStringOrEmpty | stateBeginString
  | stateEndValue | stateEndTop
  | stateInString | stateInStringEsc
  | stateInStringEscU | stateInStringEscU1 | stateInStringEscU12 | stateInStringEscU123
  | stateNeg | state1 | state0 | stateDot | stateDot0 | stateE | stateESign | stateE0
  | stateT | stateTr | stateTru
  | stateF | stateFa | stateFal | stateFals
  | stateN | stateNu | stateNul
  | stateError
  deriving DecidableEq, Repr

/-- The entries of the scanner's `parseState` stack. -/
inductive ParseState where
  | parseObjectKey | parseObjectValue | parseArrayValue
  deriving DecidableEq, Repr

/-- The fields of `json.scanner` that `Compact` reads and writes. The stack
`parseState` is kept with its top first. -/
structure Scanner where
  step : StepFn
  endTop : Bool
  parseState : List ParseState
  err : Option GoError
  deriving DecidableEq, Repr

def scanContinue : Nat := 0
def scanBeginLiteral : Nat := 1
def scanBeginObject : Nat := 2
def scanObjectKey : Nat := 3
def scanObjectValue : Nat := 4
def scanEndObject : Nat := 5
def scanBeginArray : Nat := 6
def scanArrayValue : Nat := 7
def scanEndArray : Nat := 8
def scanSkipSpace : Nat := 9
def scanEnd : Nat := 10
def scanError : Nat := 11

/-- The limit `maxNestingDepth` of `scanner.go`. -/
def maxNestingDepth : Nat := 10000

/-- Go `isSpace`: space, tab, carriage return, line feed. -/
def isSpace (c : Nat) : Bool := c = 32 || c = 9 || c = 13 || c = 10

/-- Decimal digit test `'0' <= c && c <= '9'`. -/
def isDigit (c : Nat) : Bool := decide (48 ≤ c) && decide (c ≤ 57)

/-- Hexadecimal digit test of the `\u` escape states. -/
def isHexDigit (c : Nat) : Bool :=
  isDigit c || (decide (97 ≤ c) && decide (c ≤ 102)) || (decide (65 ≤ c) && decide (c ≤ 70))

/-- Go `newScanner` followed by `reset`. -/
def newScanner : Scanner :=
  { step := .stateBeginValue, endTop := false, parseState := [], err := none }

/-- Go `(*scanner).error`: record the error and switch to `stateError`. -/
def Scanner.error (s : Scanner) (c : Nat) (context : String) : Scanner × Nat :=
  ({ s with step := .stateError, err := some (.syntaxError (some c) context) }, scanError)

/-- Go `(*scanner).pushParseState`. -/
def Scanner.pushParseState (s : Scanner) (c : Nat) (newParseState : ParseState)
    (successState : Nat) : Scanner × Nat :=
  let s := { s with parseState := newParseState :: s.parseState }
  if s.parseState.length ≤ maxNestingDepth then (s, successState)
  else s.error c "exceeded max depth"

/-- Go `(*scanner).popParseState`. -/
def Scanner.popParseState (s : Scanner) : Scanner :=
  let s := { s with parseState := s.parseState.tail }
  if s.parseState.length = 0 then { s with step := .stateEndTop, endTop := true }
  else { s with step := .stateEndValue }

/-- Go `stateEndTop`: a non-space byte after the top-level value records an
error, and the call still answers `scanEnd`. -/
def stateEndTop (s : Scanner) (c : Nat) : Scanner × Nat :=
  if !isSpace c then ((s.error c "after top-level value").1, scanEnd) else (s, scanEnd)

/-- Go `stateEndValue`. -/
def stateEndValue (s : Scanner) (c : Nat) : Scanner × Nat :=
  match s.parseState with
  | [] => stateEndTop { s with step := .stateEndTop, endTop := true } c
  | ps :: rest =>
    if isSpace c then ({ s with step := .stateEndValue }, scanSkipSpace)
    else match ps with
      | .parseObjectKey =>
        if c = 58 then
          ({ s with parseState := .parseObjectValue :: rest, step := .stateBeginValue },
            scanObjectKey)
        else s.error c "after object key"
      | .parseObjectValue =>
        if c = 44 then
          ({ s with parseState := .parseObjectKey :: rest, step := .stateBeginString },
            scanObjectValue)
        else if c = 125 then (s.popParseState, scanEndObject)
        else s.error c "after object key:value pair"
      | .parseArrayValue =>
        if c = 44 then ({ s with step := .stateBeginValue }, scanArrayValue)
        else if c = 93 then (s.popParseState, scanEndArray)
        else s.error c "after array element"

/-- Go `stateBeginValue`. -/
def stateBeginValue (s : Scanner) (c : Nat) : Scanner × Nat :=
  if isSpace c then (s, scanSkipSpace)
  else if c = 123 then
    Scanner.pushParseState { s with step := .stateBeginStringOrEmpty } c .parseObjectKey
      scanBeginObject
  else if c = 91 then
    Scanner.pushParseState { s with step := .stateBeginValueOrEmpty } c .parseArrayValue
      scanBeginArray
  else if c = 34 then ({ s with step := .stateInString }, scanBeginLiteral)
  else if c = 45 then ({ s with step := .stateNeg }, scanBeginLiteral)
  else if c = 48 then ({ s with step := .state0 }, scanBeginLiteral)
  else if c = 116 then ({ s with step := .stateT }, scanBeginLiteral)
  else if c = 102 then ({ s with step := .stateF }, scanBeginLiteral)
  else if c = 110 then ({ s with step := .stateN }, scanBeginLiteral)
  else if 49 ≤ c ∧ c ≤ 57 then ({ s with step := .state1 }, scanBeginLiteral)
  else s.error c "looking for beginning of value"

/-- Go `stateBeginValueOrEmpty`. -/
def stateBeginValueOrEmpty (s : Scanner) (c : Nat) : Scanner × Nat :=
  if isSpace c then (s, scanSkipSpace)
  else if c = 93 then stateEndValue s c
  else stateBeginValue s c

/-- Go `stateBeginString`. -/
def stateBeginString (s : Scanner) (c : Nat) : Scanner × Nat :=
  if isSpace c then (s, scanSkipSpace)
  else if c = 34 then ({ s with step := .stateInString }, scanBeginLiteral)
  else s.error c "looking for beginning of object key string"

/-- Go `stateBeginStringOrEmpty`: on `}` the top of the stack (present whenever
this state is current) is overwritten with `parseObjectValue`. -/
def stateBeginStringOrEmpty (s : Scanner) (c : Nat) : Scanner × Nat :=
  if isSpace c then (s, scanSkipSpace)
  else if c = 125 then
    stateEndValue { s with parseState := .parseObjectValue :: s.parseState.tail } c
  else stateBeginString s c

/-- Go `stateInString`. -/
def stateInString (s : Scanner) (c : Nat) : Scanner × Nat :=
  if c = 34 then ({ s with step := .stateEndValue }, scanContinue)
  else if c = 92 then ({ s with step := .stateInStringEsc }, scanContinue)
  else if c < 32 then s.error c "in string literal"
  else (s, scanContinue)

/-- Go `stateInStringEsc`: one of `b f n r t \ / "`, or `u`. -/
def stateInStringEsc (s : Scanner) (c : Nat) : Scanner × Nat :=
  if c = 98 ∨ c = 102 ∨ c = 110 ∨ c = 114 ∨ c = 116 ∨ c = 92 ∨ c = 47 ∨ c = 34 then
    ({ s with step := .stateInString }, scanContinue)
  else if c = 117 then ({ s with step := .stateInStringEscU }, scanContinue)
  else s.error c "in string escape code"

/-- The four states `stateInStringEscU`, `U1`, `U12`, `U123`: a hexadecimal
digit moves on to `next`. -/
def stateInStringEscHex (next : StepFn) (s : Scanner) (c : Nat) : Scanner × Nat :=
  if isHexDigit c then ({ s with step := next }, scanContinue)
  else s.error c "in \\u hexadecimal character escape"

/-- Go `stateNeg`. -/
def stateNeg (s : Scanner) (c : Nat) : Scanner × Nat :=
  if c = 48 then ({ s with step := .state0 }, scanContinue)
  else if 49 ≤ c ∧ c ≤ 57 then ({ s with step := .state1 }, scanContinue)
  else s.error c "in numeric literal"

/-- Go `state0`. -/
def state0 (s : Scanner) (c : Nat) : Scanner × Nat :=
  if c = 46 then ({ s with step := .stateDot }, scanContinue)
  else if c = 101 ∨ c = 69 then ({ s with step := .stateE }, scanContinue)
  else stateEndValue s c

/-- Go `state1`. -/
def state1 (s : Scanner) (c : Nat) : Scanner × Nat :=
  if isDigit c then ({ s with step := .state1 }, scanContinue) else state0 s c

/-- Go `stateDot`. -/
def stateDot (s : Scanner) (c : Nat) : Scanner × Nat :=
  if isDigit c then ({ s with step := .stateDot0 }, scanContinue)
  else s.error c "after decimal point in numeric literal"

/-- Go `stateDot0`. -/
def stateDot0 (s : Scanner) (c : Nat) : Scanner × Nat :=
  if isDigit c then (s, scanContinue)
  else if c = 101 ∨ c = 69 then ({ s with step := .stateE }, scanContinue)
  else stateEndValue s c

/-- Go `stateESign`. -/
def stateESign (s : Scanner) (c : Nat) : Scanner × Nat :=
  if isDigit c then ({ s with step := .stateE0 }, scanContinue)
  else s.error c "in exponent of numeric literal"

/-- Go `stateE`. -/
def stateE (s : Scanner) (c : Nat) : Scanner × Nat :=
  if c = 43 ∨ c = 45 then ({ s with step := .stateESign }, scanContinue) else stateESign s c

/-- Go `stateE0`. -/
def stateE0 (s : Scanner) (c : Nat) : Scanner × Nat :=
  if isDigit c then (s, scanContinue) else stateEndValue s c

/-- The states inside the literals `true`, `false`, `null`: the byte `want`
moves on to `next`. -/
def stateKeyword (want : Nat) (next : StepFn) (context : String) (s : Scanner) (c : Nat) :
    Scanner × Nat :=
  if c = want then ({ s with step := next }, scanContinue) else s.error c context

/-- The call `s.step(s, c)`. -/
def Scanner.run (s : Scanner) (c : Nat) : Scanner × Nat :=
  match s.step with
  | .stateBeginValueOrEmpty => stateBeginValueOrEmpty s c
  | .stateBeginValue => stateBeginValue s c
  | .stateBeginStringOrEmpty => stateBeginStringOrEmpty s c
  | .stateBeginString => stateBeginString s c
  | .stateEndValue => stateEndValue s c
  | .stateEndTop => stateEndTop s c
  | .stateInString => stateInString s c
  | .stateInStringEsc => stateInStringEsc s c
  | .stateInStringEscU => stateInStringEscHex .stateInStringEscU1 s c
  | .stateInStringEscU1 => stateInStringEscHex .stateInStringEscU12 s c
  | .stateInStringEscU12 => stateInStringEscHex .stateInStringEscU123 s c
  | .stateInStringEscU123 => stateInStringEscHex .stateInString s c
  | .stateNeg => stateNeg s c
  | .state1 => state1 s c
  | .state0 => state0 s c
  | .stateDot => stateDot s c
  | .stateDot0 => stateDot0 s c
  | .stateE => stateE s c
  | .stateESign => stateESign s c
  | .stateE0 => stateE0 s c
  | .stateT => stateKeyword 114 .stateTr "in literal true (expecting r)" s c
  | .stateTr => stateKeyword 117 .stateTru "in literal true (expecting u)" s c
  | .stateTru => stateKeyword 101 .stateEndValue "in literal true (expecting e)" s c
  | .stateF => stateKeyword 97 .stateFa "in literal false (expecting a)" s c
  | .stateFa => stateKeyword 108 .stateFal "in literal false (expecting l)" s c
  | .stateFal => stateKeyword 115 .stateFals "in literal false (expecting s)" s c
  | .stateFals => stateKeyword 101 .stateEndValue "in literal false (expecting e)" s c
  | .stateN => stateKeyword 117 .stateNu "in literal null (expecting u)" s c
  | .stateNu => stateKeyword 108 .stateNul "in literal null (expecting l)" s c
  | .stateNul => stateKeyword 108 .stateEndValue "in literal null (expecting l)" s c
  | .stateError => (s, scanError)

/-- Go `(*scanner).eof`. -/
def Scanner.eof (s : Scanner) : Scanner × Nat :=
  if s.err.isSome then (s, scanError)
  else if s.endTop then (s, scanEnd)
  else
    let s := (s.run 32).1
    if s.endTop then (s, scanEnd)
    else if s.err.isNone then
      ({ s with err := some (.syntaxError none "unexpected end of JSON input") }, scanError)
    else (s, scanError)

/-- The loop of `json.Compact` (`appendCompact` with `escape = false`) over the
rest of the source: a byte whose step answers `scanSkipSpace` or `scanEnd` is
left out, `scanError` ends the loop, every other byte is copied to `dst`. -/
def compactLoop (s : Scanner) (dst : Bytes) : Bytes → Scanner × Bytes
  | [] => (s, dst)
  | c :: rest =>
    let r := s.run c
    if r.2 ≥ scanSkipSpace then
      if r.2 = scanError then (r.1, dst) else compactLoop r.1 dst rest
    else compactLoop r.1 (dst ++ [c]) rest

/-- Go `json.Compact(&buf, src)` on an empty buffer: the buffer contents
afterwards and the returned error. On an error the buffer is truncated back to
its original (empty) length. -/
def jsonCompact (src : Bytes) : Bytes × Option GoError :=
  let r := compactLoop newScanner [] src
  let e := r.1.eof
  if e.2 = scanError then ([], e.1.err) else (r.2, none)

/-! ## Keys, the clock, the random source and the external library -/

/-- The fields of `rsa.PrivateKey`. -/
structure RSAPrivateKey where
  N : Nat
  E : Nat
  D : Nat
  Primes : List Nat
  deriving DecidableEq, Repr

/-- The dynamic types of the key that `x509.ParsePKCS8PrivateKey` returns:
`*rsa.PrivateKey`, `*ecdsa.PrivateKey`, `ed25519.PrivateKey`, `*ecdh.PrivateKey`. -/
inductive ParsedKey where
  | rsa (k : RSAPrivateKey)
  | ecdsa (d : Bytes)
  | ed25519 (d : Bytes)
  | ecdh (d : Bytes)
  deriving DecidableEq, Repr

/-- The fields of a `pem.Block` that the program reads. -/
structure PemBlock where
  blockType : Bytes
  bytes : Bytes
  deriving DecidableEq, Repr

/-- The stream of bytes behind `crypto/rand.Reader`. -/
abbrev RandReader := Nat → Nat

/-- The standard-library primitives the program calls without looking inside,
for a structured-body type `α` (the dynamic types of `Body` other than
`string`). The three length and determinism fields are the documented
contracts of the Go packages. -/
structure Lib (α : Type) where
  /-- Result of `json.Marshal(v)`. -/
  jsonMarshal : α → Bytes × Option GoError
  /-- Digest of `sha256.Sum256(m)`, equally of `sha256.New` + `Write` + `Sum(nil)`. -/
  sha256Sum : Bytes → Bytes
  /-- The digest is a `[32]byte`. -/
  sha256Sum_length : ∀ m, (sha256Sum m).length = 32
  /-- Error result of `hash.Write(data)` on `hmac.New(sha512.New, key)`. -/
  hmacWrite : Bytes → Bytes → Option GoError
  /-- From `hash.Hash`: "Write ... never returns an error". -/
  hmacWrite_nil : ∀ key data, hmacWrite key data = none
  /-- Result of `hash.Sum(nil)` after writing `data` to `hmac.New(sha512.New, key)`. -/
  hmacSum : Bytes → Bytes → Bytes
  /-- The MAC has `sha512.Size` bytes. -/
  hmacSum_length : ∀ key data, (hmacSum key data).length = 64
  /-- First result of `pem.Decode`: the first PEM block of the text, if any. -/
  pemDecode : Bytes → Option PemBlock
  /-- Result of `x509.ParsePKCS8PrivateKey(der)`. -/
  parsePKCS8PrivateKey : Bytes → Option ParsedKey × Option GoError
  /-- Result of `rsa.SignPKCS1v15(random, priv, crypto.SHA256, hashed)`. -/
  signPKCS1v15 : RandReader → Option RSAPrivateKey → Bytes → Bytes × Option GoError
  /-- From `crypto/rsa`: PKCS #1 v1.5 signing is deterministic; `random` serves
  blinding only (and is ignored by current releases). -/
  signPKCS1v15_random : ∀ r r2 priv hashed,
    signPKCS1v15 r priv hashed = signPKCS1v15 r2 priv hashed
  /-- Result of `strings.Map(unicode.ToLower, s)`. -/
  unicodeLower : Bytes → Bytes

/-! ## `models.go` -/

/-- The dynamic value of the field `Body any`. -/
inductive BodyValue (α : Type) where
  /-- The `nil` interface value. -/
  | nil
  /-- Dynamic type `string`. -/
  | string (s : Bytes)
  /-- Any other dynamic type. -/
  | value (v : α)
  deriving DecidableEq, Repr

/-- Go `SignatureRequest`. -/
structure SignatureRequest (α : Type) where
  SignatureRequestType : Bytes
  Method : Bytes
  URL : Bytes
  Body : BodyValue α
  ClientID : Bytes
  Timestamp : Bytes
  PrivateKey : Bytes
  AccessToken : Bytes
  SecretKey : Bytes
  deriving DecidableEq, Repr

/-- Go `SignatureResponse`; the map `Headers` is the list of its entries. -/
structure SignatureResponse where
  Signature : Bytes
  Timestamp : Bytes
  StringToSign : Bytes
  Headers : List (Bytes × Bytes)
  deriving DecidableEq, Repr

/-! ## `utils.go` -/

section Program

variable {α : Type}

/-- Go `GenerateHexEncodedSHA256`. -/
def GenerateHexEncodedSHA256 (L : Lib α) (msg : Bytes) : Bytes :=
  hexEncodeToString (L.sha256Sum msg)

/-- Go `GetPKCS8RSAPrivateKey`, with its named results `(rsaPrivateKey, err)`. -/
def GetPKCS8RSAPrivateKey (L : Lib α) (pKey : Bytes) :
    Option RSAPrivateKey × Option GoError :=
  match L.pemDecode pKey with
  | none => (none, some (.errorString "ssh: no key found"))
  | some block =>
    match L.parsePKCS8PrivateKey block.bytes with
    | (_, some err) => (none, some err)
    | (some (.rsa k), none) => (some k, none)
    | (_, none) => (none, some (.errorString "cannot type assert as rsa private key pointer"))

/-- Go `GenerateBase64EncodedSHA256withRSA`, with its named results
`(encryptedMsg, err)`. -/
def GenerateBase64EncodedSHA256withRSA (L : Lib α) (randomReader : RandReader)
    (message : Bytes) (rsaPrivateKey : Option RSAPrivateKey) : Bytes × Option GoError :=
  let hashed := L.sha256Sum message
  match L.signPKCS1v15 randomReader rsaPrivateKey hashed with
  | (_, some err) => ([], some err)
  | (byteSign, none) => (base64EncodeToString byteSign, none)

/-- Go `GenerateBase64EncodedHMAC512WithSecretKey`. -/
def GenerateBase64EncodedHMAC512WithSecretKey (L : Lib α) (secretKey : Bytes) (data : Bytes) :
    Bytes × Option GoError :=
  match L.hmacWrite secretKey data with
  | some err => ([], some err)
  | none => (base64EncodeToString (L.hmacSum secretKey data), none)

/-! ## `signer.go` -/

/-- Go `GenerateCurrentTimestamp`, given the value of `time.Now()`. -/
def GenerateCurrentTimestamp (now : Time) : Bytes := formatISOMillis now

/-- Lines 31-39 of `signer.go` (repeated at 95-103): the value of
`encodedRequest` for the serialised body `bodyBytes`, or the error of
`json.Compact` on which the generator returns. -/
def encodeBodyBytes (L : Lib α) (bodyBytes : Bytes) : Bytes × Option GoError :=
  if bodyBytes.length > 0 then
    match jsonCompact bodyBytes with
    | (_, some err) => ([], some err)
    | (minifiedRequest, none) => (GenerateHexEncodedSHA256 L minifiedRequest, none)
  else ([], none)

/-- The block that opens both transaction generators (`signer.go` lines 13-40,
repeated at 77-104): the value of `encodedRequest` after it, or the error on
which the generator returns early. -/
def encodeRequestBody (L : Lib α) (body : BodyValue α) : Bytes × Option GoError :=
  match body with
  | .nil => ([], none)
  | .string bodyStr => encodeBodyBytes L bodyStr
  | .value v =>
    match L.jsonMarshal v with
    | (_, some err) => ([], some err)
    | (bodyBytes, none) => encodeBodyBytes L bodyBytes

/-- The statement `if req.Timestamp == "" { req.Timestamp = GenerateCurrentTimestamp() }`. -/
def resolveTimestamp (now : Time) (req : SignatureRequest α) : SignatureRequest α :=
  if req.Timestamp = [] then { req with Timestamp := GenerateCurrentTimestamp now } else req

/-- Go `GenerateSignatureForTransactions`. -/
def GenerateSignatureForTransactions (L : Lib α) (now : Time) (rand : RandReader)
    (req : SignatureRequest α) : Option SignatureResponse × Option GoError :=
  match encodeRequestBody L req.Body with
  | (_, some err) => (none, some err)
  | (encodedRequest, none) =>
    let req := resolveTimestamp now req
    match GetPKCS8RSAPrivateKey L req.PrivateKey with
    | (_, some err) => (none, some err)
    | (decodedRSAPrivateKey, none) =>
      let signatureMessage := stringsJoin
        [req.Method, req.URL, stringsToLower L.unicodeLower encodedRequest, req.Timestamp]
        (str ":")
      match GenerateBase64EncodedSHA256withRSA L rand signatureMessage decodedRSAPrivateKey with
      | (_, some err) => (none, some err)
      | (signature, none) =>
        (some
          { Signature := signature
            Timestamp := req.Timestamp
            StringToSign := signatureMessage
            Headers := [(str "X-TIMESTAMP", req.Timestamp), (str "X-SIGNATURE", signature)] },
          none)

/-- Go `GenerateSignatureForTransactionsHMAC512`. -/
def GenerateSignatureForTransactionsHMAC512 (L : Lib α) (now : Time)
    (req : SignatureRequest α) : Option SignatureResponse × Option GoError :=
  match encodeRequestBody L req.Body with
  | (_, some err) => (none, some err)
  | (encodedRequest, none) =>
    let req := resolveTimestamp now req
    let signatureMessage := stringsJoin
      [req.Method, req.URL, req.AccessToken, stringsToLower L.unicodeLower encodedRequest,
        req.Timestamp]
      (str ":")
    match GenerateBase64EncodedHMAC512WithSecretKey L req.SecretKey signatureMessage with
    | (_, some err) => (none, some err)
    | (signature, none) =>
      (some
        { Signature := signature
          Timestamp := req.Timestamp
          StringToSign := signatureMessage
          Headers := [(str "X-TIMESTAMP", req.Timestamp), (str "X-SIGNATURE", signature)] },
        none)

/-- Go `GenerateSignatureForToken`. -/
def GenerateSignatureForToken (L : Lib α) (now : Time) (rand : RandReader)
    (req : SignatureRequest α) : Option SignatureResponse × Option GoError :=
  let req := resolveTimestamp now req
  match GetPKCS8RSAPrivateKey L req.PrivateKey with
  | (_, some err) => (none, some err)
  | (decodedRSAPrivateKey, none) =>
    let signatureMessage := stringsJoin [req.ClientID, req.Timestamp] (str "|")
    match GenerateBase64EncodedSHA256withRSA L rand signatureMessage decodedRSAPrivateKey with
    | (_, some err) => (none, some err)
    | (signature, none) =>
      (some
        { Signature := signature
          Timestamp := req.Timestamp
          StringToSign := signatureMessage
          Headers := [(str "X-TIMESTAMP", req.Timestamp), (str "X-SIGNATURE", signature)] },
        none)

end Program

/-! ## A small library instance

Runnable stand-ins for the library primitives, for evaluating the program on
concrete requests. They are not the real algorithms: only the program's own
steps are observed through them. -/

/-- Stand-in digest: 32 bytes derived from the byte sum of the message. -/
def demoSum256 (m : Bytes) : Bytes := (List.range 32).map (fun i => (m.sum + i) % 256)

/-- Stand-in MAC: 64 bytes derived from the byte sums of key and data. -/
def demoHmacSum (key data : Bytes) : Bytes :=
  (List.range 64).map (fun i => (key.sum + 2 * data.sum + i) % 256)

/-- Stand-in PEM decoder: a text starting with `-` is a block holding the rest. -/
def demoPemDecode : Bytes → Option PemBlock
  | 45 :: rest => some { blockType := str "PRIVATE KEY", bytes := rest }
  | _ => none

/-- Stand-in PKCS8 reader: `R...` is an RSA key, `E...` an ECDSA key, anything
else does not parse. -/
def demoParsePKCS8 : Bytes → Option ParsedKey × Option GoError
  | 82 :: rest => (some (.rsa { N := 3233, E := 17, D := 2753 + rest.length, Primes := [61, 53] }),
      none)
  | 69 :: rest => (some (.ecdsa rest), none)
  | _ => (none, some (.library "x509: failed to parse private key"))

/-- Stand-in signer: shifts the digest bytes by the private exponent; a nil key
or an empty digest is an error. -/
def demoSign (_ : RandReader) (priv : Option RSAPrivateKey) (hashed : Bytes) :
    Bytes × Option GoError :=
  match priv with
  | none => ([], some (.library "crypto/rsa: missing private key"))
  | some k =>
    if hashed.length = 0 then ([], some (.library "crypto/rsa: input must be hashed message"))
    else (hashed.map (fun b => (b + k.D) % 256), none)

/-- The stand-in library, for structured bodies of type `Unit` (serialised as
the empty object). -/
def demoLib : Lib Unit where
  jsonMarshal := fun _ => (str "\x7b\x7d", none)
  sha256Sum := demoSum256
  sha256Sum_length := fun m => by simp [demoSum256]
  hmacWrite := fun _ _ => none
  hmacWrite_nil := fun _ _ => rfl
  hmacSum := demoHmacSum
  hmacSum_length := fun k d => by simp [demoHmacSum]
  pemDecode := demoPemDecode
  parsePKCS8PrivateKey := demoParsePKCS8
  signPKCS1v15 := demoSign
  signPKCS1v15_random := fun _ _ _ _ => rfl
  unicodeLower := id

/-- A clock reading: 2024-01-15 10:30:00.000 at UTC+7. -/
def demoNow : Time :=
  { year := 2024, month := 1, day := 15, hour := 10, minute := 30, second := 0,
    nanosecond := 0, offset := 25200 }

/-- A random stream. -/
def demoRand : RandReader := fun i => (7 * i + 3) % 256

/-- The RSA transaction request of the specification scenario. -/
def demoRequest : SignatureRequest Unit :=
  { SignatureRequestType := str "TRANSACTIONS_RSA_SHA256"
    Method := str "POST"
    URL := str "/v1.0/debit"
    Body := .string (str "\x7b\"amount\":\"1000\"\x7d")
    ClientID := str "client-42"
    Timestamp := str "2024-01-15T10:30:00.000+07:00"
    PrivateKey := str "-R"
    AccessToken := str "tok-123"
    SecretKey := str "s3cr3t" }

/-- The response to `demoRequest` under the RSA transaction scheme. -/
def demoResponse : SignatureResponse :=
  { Signature := str "0dLT1NXW19jZ2tvc3d7f4OHi4+Tl5ufo6err7O3u7/A="
    Timestamp := str "2024-01-15T10:30:00.000+07:00"
    StringToSign := str ("POST:/v1.0/debit:" ++
      "0f101112131415161718191a1b1c1d1e1f202122232425262728292a2b2c2d2e" ++
      ":2024-01-15T10:30:00.000+07:00")
    Headers := [(str "X-TIMESTAMP", str "2024-01-15T10:30:00.000+07:00"),
      (str "X-SIGNATURE", str "0dLT1NXW19jZ2tvc3d7f4OHi4+Tl5ufo6err7O3u7/A=")] }

/-- The signature of `demoRequest` under the HMAC transaction scheme. -/
def demoHmacSignature : Bytes :=
  str ("2Nna29zd3t/g4eLj5OXm5+jp6uvs7e7v8PHy8/T19vf4+fr7/P3+/wABAgMEBQYHCAkKCwwNDg8QERITFBUWFw" ++
    "==")

/-- The response to `demoRequest` under the HMAC transaction scheme. -/
def demoHmacResponse : SignatureResponse :=
  { Signature := demoHmacSignature
    Timestamp := str "2024-01-15T10:30:00.000+07:00"
    StringToSign := str ("POST:/v1.0/debit:tok-123:" ++
      "0f101112131415161718191a1b1c1d1e1f202122232425262728292a2b2c2d2e" ++
      ":2024-01-15T10:30:00.000+07:00")
    Headers := [(str "X-TIMESTAMP", str "2024-01-15T10:30:00.000+07:00"),
      (str "X-SIGNATURE", demoHmacSignature)] }

/-- The response to `demoRequest` under the token scheme. -/
def demoTokenResponse : SignatureResponse :=
  { Signature := str "Dg8QERITFBUWFxgZGhscHR4fICEiIyQlJicoKSorLC0="
    Timestamp := str "2024-01-15T10:30:00.000+07:00"
    StringToSign := str "client-42|2024-01-15T10:30:00.000+07:00"
    Headers := [(str "X-TIMESTAMP", str "2024-01-15T10:30:00.000+07:00"),
      (str "X-SIGNATURE", str "Dg8QERITFBUWFxgZGhscHR4fICEiIyQlJicoKSorLC0=")] }

/-! ## The quantities the specification names -/

section Specification

variable {α : Type}

/-- The serialised body of the body digest rule: no bytes for an absent body,
the text itself for raw text, the JSON serialisation for a structured value. -/
def serialisedBody (L : Lib α) : BodyValue α → Bytes
  | .nil => []
  | .string s => s
  | .value v => (L.jsonMarshal v).1

/-- The body digest segment `D` as the specification words it: empty when the
body is absent or has zero bytes, otherwise the lowercase hex SHA-256 of the
JSON-compacted body bytes. -/
def digestSegment (L : Lib α) (body : BodyValue α) : Bytes :=
  if (serialisedBody L body).length = 0 then []
  else hexEncodeToString (L.sha256Sum (jsonCompact (serialisedBody L body)).1)

/-- The resolved timestamp `T`: the supplied one when it is non-empty, the
formatted clock reading otherwise. -/
def resolvedTimestamp (now : Time) (req : SignatureRequest α) : Bytes :=
  if req.Timestamp = [] then GenerateCurrentTimestamp now else req.Timestamp

end Specification

/-! ## The lexical reading of a JSON text -/

/-- Where a byte of a JSON text stands with respect to string literals. -/
inductive Lexical where
  | outside | inString | afterBackslash
  deriving DecidableEq, Repr

/-- The lexical position after the byte `c`. -/
def lexNext : Lexical → Nat → Lexical
  | .outside, c => if c = 34 then .inString else .outside
  | .inString, c => if c = 34 then .outside else if c = 92 then .afterBackslash else .inString
  | .afterBackslash, _ => .inString

/-- Insignificant whitespace: a space, tab, carriage return or line feed
outside every string literal. -/
def insignificant (l : Lexical) (c : Nat) : Bool := decide (l = .outside) && isSpace c

/-- The text without its insignificant whitespace. -/
def stripWhitespace : Lexical → Bytes → Bytes
  | _, [] => []
  | l, c :: rest =>
    if insignificant l c then stripWhitespace (lexNext l c) rest
    else c :: stripWhitespace (lexNext l c) rest

/-- The lexical position that a scanner state stands for. -/
def lexOf : StepFn → Lexical
  | .stateInString => .inString
  | .stateInStringEsc => .afterBackslash
  | .stateInStringEscU => .inString
  | .stateInStringEscU1 => .inString
  | .stateInStringEscU12 => .inString
  | .stateInStringEscU123 => .inString
  | _ => .outside

/-- One scanner step either records an error and stops in `stateError`, or
agrees with the lexical reading of the byte: it is dropped exactly when it is
insignificant. -/
def SimStep (l : Lexical) (c : Nat) (r : Scanner × Nat) : Prop :=
  (r.1.err.isSome = true ∧ r.1.step = .stateError) ∨
  (r.1.err = none ∧ r.1.step ≠ .stateError ∧ r.2 ≠ scanError ∧
    (scanSkipSpace ≤ r.2 ↔ insignificant l c = true) ∧ lexOf r.1.step = lexNext l c)

/-! ## `models.go`: validation -/

section Validation

variable {α : Type}

/-- Go `ValidationError`; its `Error()` is `Message`. -/
structure ValidationError where
  Field : String
  Message : String
  deriving DecidableEq, Repr

/-- Go constant `SignatureTypeTransactionsRSA`. -/
def SignatureTypeTransactionsRSA : Bytes := str "TRANSACTIONS_RSA_SHA256"

/-- Go constant `SignatureTypeTransactionsHMAC`. -/
def SignatureTypeTransactionsHMAC : Bytes := str "TRANSACTIONS_HMAC_SHA512"

/-- Go constant `SignatureTypeToken`. -/
def SignatureTypeToken : Bytes := str "TOKEN_RSA_SHA256"

/-- The test `r.Body == nil`. -/
def BodyValue.isNil : BodyValue α → Bool
  | .nil => true
  | _ => false

/-- Go `(*SignatureRequest).Validate`: the request behind the receiver after the
call, and the returned error. -/
def SignatureRequest.Validate (r : SignatureRequest α) :
    SignatureRequest α × Option ValidationError :=
  if r.SignatureRequestType = [] then
    (r, some { Field := "signatureRequestType", Message := "signatureRequestType is required" })
  else if r.SignatureRequestType = SignatureTypeTransactionsRSA then
    if r.Method = [] then
      (r, some { Field := "method", Message := "method is required for transactions" })
    else if r.URL = [] then
      (r, some { Field := "url", Message := "url is required for transactions" })
    else if r.Body.isNil then
      (r, some { Field := "body", Message := "body is required for transactions" })
    else if r.PrivateKey = [] then
      (r, some { Field := "privateKey", Message := "privateKey is required for RSA signatures" })
    else (r, none)
  else if r.SignatureRequestType = SignatureTypeTransactionsHMAC then
    if r.Method = [] then
      (r, some { Field := "method", Message := "method is required for transactions" })
    else if r.URL = [] then
      (r, some { Field := "url", Message := "url is required for transactions" })
    else if r.Body.isNil then
      (r, some { Field := "body", Message := "body is required for transactions" })
    else if r.AccessToken = [] then
      (r, some { Field := "accessToken", Message := "accessToken is required for HMAC signatures" })
    else if r.SecretKey = [] then
      (r, some { Field := "secretKey", Message := "secretKey is required for HMAC signatures" })
    else (r, none)
  else if r.SignatureRequestType = SignatureTypeToken then
    if r.ClientID = [] then
      (r, some { Field := "clientID", Message := "clientID is required for token generation" })
    else if r.PrivateKey = [] then
      (r, some
        { Field := "privateKey", Message := "privateKey is required for token generation" })
    else (r, none)
  else (r, some { Field := "signatureRequestType", Message := "invalid signature type" })

end Validation

/-! ## `utils.go`: the default key -/

/-- Result of `os.ReadFile("keys/privateKey.pem")`: the file contents, an error
for which `os.IsNotExist` holds, or another error (with its text). -/
inductive ReadFileResult where
  | contents (data : Bytes)
  | notExist (text : String)
  | failed (text : String)
  deriving DecidableEq, Repr

/-- Go `LoadDefaultPrivateKey`, given what reading the key file yields. The
error of `fmt.Errorf("error reading private key file: %w", err)` is carried with
its formatted text. -/
def LoadDefaultPrivateKey (keyFile : ReadFileResult) : Bytes × Option GoError :=
  match keyFile with
  | .notExist _ => ([], some (.errorString "private key file not found"))
  | .failed text => ([], some (.library ("error reading private key file: " ++ text)))
  | .contents data => (data, none)

/-! ## `handlers.go` -/

section Handler

variable {α : Type}

/-- The text of an error message sent to the client. -/
inductive ErrorText where
  /-- A string constant of the program, or the `Message` of a validation error. -/
  | literal (s : String)
  /-- The text `err.Error()`. -/
  | ofError (err : GoError)
  /-- The text `fmt.Sprintf("Error loading default private key: %v", err)`. -/
  | loadingDefaultKey (err : GoError)
  deriving DecidableEq, Repr

/-- The JSON value written to the client: an `ErrorResponse` or the (pointer to
the) `SignatureResponse`. -/
inductive ResponseBody where
  | errorResponse (Error : ErrorText)
  | signatureResponse (resp : Option SignatureResponse)
  deriving DecidableEq, Repr

/-- What a handler writes to its `http.ResponseWriter`. -/
structure HTTPResponse where
  contentType : String
  statusCode : Nat
  body : ResponseBody
  deriving DecidableEq, Repr

def StatusOK : Nat := 200
def StatusBadRequest : Nat := 400
def StatusInternalServerError : Nat := 500

/-- Go `respondWithError`. -/
def respondWithError (statusCode : Nat) (message : ErrorText) : HTTPResponse :=
  { contentType := "application/json", statusCode := statusCode,
    body := .errorResponse message }

/-- Go `respondWithJSON`, for the one kind of data it is called with. -/
def respondWithJSON (statusCode : Nat) (data : Option SignatureResponse) : HTTPResponse :=
  { contentType := "application/json", statusCode := statusCode,
    body := .signatureResponse data }

/-- The `switch req.SignatureRequestType` of `HandleGenerateSignature`: the
result of the generator of the matching case, or `none` in the default case. -/
def routeBySignatureType (L : Lib α) (now : Time) (rand : RandReader)
    (req : SignatureRequest α) : Option (Option SignatureResponse × Option GoError) :=
  if req.SignatureRequestType = SignatureTypeTransactionsRSA then
    some (GenerateSignatureForTransactions L now rand req)
  else if req.SignatureRequestType = SignatureTypeTransactionsHMAC then
    some (GenerateSignatureForTransactionsHMAC512 L now req)
  else if req.SignatureRequestType = SignatureTypeToken then
    some (GenerateSignatureForToken L now rand req)
  else none

/-- Lines 39-65 of `handlers.go`: validation, routing and the response. -/
def validateAndRoute (L : Lib α) (now : Time) (rand : RandReader)
    (req : SignatureRequest α) : HTTPResponse :=
  match req.Validate with
  | (_, some err) => respondWithError StatusBadRequest (.literal err.Message)
  | (req, none) =>
    match routeBySignatureType L now rand req with
    | none => respondWithError StatusBadRequest (.literal "Invalid signature type")
    | some (_, some err) => respondWithError StatusInternalServerError (.ofError err)
    | some (resp, none) => respondWithJSON StatusOK resp

/-- Go `HandleGenerateSignature`, given the result `decoded` of decoding the
request body into a `SignatureRequest` and what reading the key file yields. -/
def HandleGenerateSignature (L : Lib α) (now : Time) (rand : RandReader)
    (keyFile : ReadFileResult) (decoded : SignatureRequest α × Option GoError) :
    HTTPResponse :=
  match decoded with
  | (_, some _) => respondWithError StatusBadRequest (.literal "Invalid request body")
  | (req, none) =>
    if req.PrivateKey = [] then
      match LoadDefaultPrivateKey keyFile with
      | (_, some err) => respondWithError StatusInternalServerError (.loadingDefaultKey err)
      | (defaultKey, none) =>
        validateAndRoute L now rand { req with PrivateKey := defaultKey }
    else validateAndRoute L now rand req

end Handler

/-! ## Requests for the scenarios -/

/-- The HMAC transaction request of the specification scenario, without a
private key. -/
def demoHmacRequest : SignatureRequest Unit :=
  { demoRequest with
    SignatureRequestType := str "TRANSACTIONS_HMAC_SHA512"
    PrivateKey := [] }

/-! ## Quantities used to state the claims on validation, the handler and the timestamp -/

section SpecValidation

variable {α : Type}

/-- The first missing required field of a request, in the order of the
specification: `method`, `url`, `body`, then the key or token fields of the
scheme; `signatureRequestType` for an empty or unknown type; `none` when
nothing is missing. -/
def firstMissingField (r : SignatureRequest α) : Option String :=
  if r.SignatureRequestType = str "TRANSACTIONS_RSA_SHA256" then
    if r.Method = [] then some "method"
    else if r.URL = [] then some "url"
    else if r.Body.isNil then some "body"
    else if r.PrivateKey = [] then some "privateKey"
    else none
  else if r.SignatureRequestType = str "TRANSACTIONS_HMAC_SHA512" then
    if r.Method = [] then some "method"
    else if r.URL = [] then some "url"
    else if r.Body.isNil then some "body"
    else if r.AccessToken = [] then some "accessToken"
    else if r.SecretKey = [] then some "secretKey"
    else none
  else if r.SignatureRequestType = str "TOKEN_RSA_SHA256" then
    if r.ClientID = [] then some "clientID"
    else if r.PrivateKey = [] then some "privateKey"
    else none
  else some "signatureRequestType"

/-- The request on which `HandleGenerateSignature` calls `Validate` (lines 24-37
of `handlers.go`): none when decoding fails or the default key is needed and
cannot be loaded; otherwise the decoded request, with the default key in an
empty `PrivateKey`. -/
def requestToValidate (keyFile : ReadFileResult)
    (decoded : SignatureRequest α × Option GoError) : Option (SignatureRequest α) :=
  match decoded with
  | (_, some _) => none
  | (req, none) =>
    if req.PrivateKey = [] then
      match LoadDefaultPrivateKey keyFile with
      | (_, some _) => none
      | (defaultKey, none) => some { req with PrivateKey := defaultKey }
    else some req

end SpecValidation

/-- The number `n` written with exactly `w` decimal digits, padded with zeros on
the left (the last `w` digits of `n` when it has more). -/
def fixedWidthDecimal : Nat → Nat → Bytes
  | 0, _ => []
  | w + 1, n => fixedWidthDecimal w (n / 10) ++ [48 + n % 10]

/-! ## Theorems -/

section Lemmas

variable {α : Type}

theorem str_colon : str ":" = [58] := rfl

theorem str_bar : str "|" = [124] := rfl

theorem hextable_lt (n : Nat) : hextable n < 128 := by
  unfold hextable; split <;> omega

theorem asciiLower_hextable (n : Nat) : asciiLower (hextable n) = hextable n := by
  unfold asciiLower hextable
  split <;> split <;> omega

theorem all_lt_hexEncodeToString (b : Bytes) :
    (hexEncodeToString b).all (fun c => decide (c < 128)) = true := by
  induction b with
  | nil => rfl
  | cons v rest ih =>
    simp only [hexEncodeToString, List.all_cons, ih, Bool.and_true, Bool.and_eq_true,
      decide_eq_true_eq]
    exact ⟨hextable_lt _, hextable_lt _⟩

theorem map_asciiLower_hexEncodeToString (b : Bytes) :
    (hexEncodeToString b).map asciiLower = hexEncodeToString b := by
  induction b with
  | nil => rfl
  | cons v rest ih => simp [hexEncodeToString, asciiLower_hextable, ih]

/-- Lower-casing a hex encoding leaves it unchanged. -/
theorem stringsToLower_hexEncodeToString (f : Bytes → Bytes) (b : Bytes) :
    stringsToLower f (hexEncodeToString b) = hexEncodeToString b := by
  unfold stringsToLower
  rw [if_pos (all_lt_hexEncodeToString b), map_asciiLower_hexEncodeToString]

theorem stringsToLower_nil (f : Bytes → Bytes) : stringsToLower f [] = [] := rfl

/-- What `encodeBodyBytes` returns without an error. -/
theorem encodeBodyBytes_ok {L : Lib α} {bodyBytes enc : Bytes}
    (h : encodeBodyBytes L bodyBytes = (enc, none)) :
    (bodyBytes = [] ∧ enc = []) ∨
    (bodyBytes ≠ [] ∧ (jsonCompact bodyBytes).2 = none ∧
      enc = hexEncodeToString (L.sha256Sum (jsonCompact bodyBytes).1)) := by
  unfold encodeBodyBytes at h
  split at h
  · rename_i hlen
    right
    have hne : bodyBytes ≠ [] := by
      intro h0; simp [h0] at hlen
    split at h
    · simp at h
    · rename_i m hm
      simp only [Prod.mk.injEq, and_true] at h
      refine ⟨hne, by rw [hm], ?_⟩
      rw [hm, ← h]; rfl
  · rename_i hlen
    left
    simp only [Prod.mk.injEq, and_true] at h
    refine ⟨?_, h.symm⟩
    cases bodyBytes with
    | nil => rfl
    | cons a t => simp at hlen

/-- What `encodeRequestBody` returns without an error: the digest segment of the
specification, and a successful compaction whenever there are body bytes. -/
theorem encodeRequestBody_ok {L : Lib α} {body : BodyValue α} {enc : Bytes}
    (h : encodeRequestBody L body = (enc, none)) :
    enc = digestSegment L body ∧
    (serialisedBody L body ≠ [] → (jsonCompact (serialisedBody L body)).2 = none) := by
  have key : ∀ bodyBytes, serialisedBody L body = bodyBytes →
      encodeBodyBytes L bodyBytes = (enc, none) →
      enc = digestSegment L body ∧
      (serialisedBody L body ≠ [] → (jsonCompact (serialisedBody L body)).2 = none) := by
    intro bodyBytes hb he
    unfold digestSegment
    rw [hb]
    rcases encodeBodyBytes_ok he with ⟨h0, h1⟩ | ⟨h0, h1, h2⟩
    · subst h0; subst h1; simp
    · refine ⟨?_, fun _ => h1⟩
      rw [if_neg (by simpa using h0)]; exact h2
  cases body with
  | nil =>
    simp only [encodeRequestBody, Prod.mk.injEq, and_true] at h
    subst h
    simp [digestSegment, serialisedBody]
  | string s => exact key s rfl h
  | value v =>
    simp only [encodeRequestBody] at h
    split at h
    · simp at h
    · rename_i bodyBytes hm
      exact key bodyBytes (by simp [serialisedBody, hm]) h

/-- The digest segment is unchanged by `strings.ToLower`. -/
theorem stringsToLower_digestSegment (L : Lib α) (f : Bytes → Bytes) (body : BodyValue α) :
    stringsToLower f (digestSegment L body) = digestSegment L body := by
  unfold digestSegment
  split
  · rfl
  · exact stringsToLower_hexEncodeToString f _

theorem resolveTimestamp_Timestamp (now : Time) (req : SignatureRequest α) :
    (resolveTimestamp now req).Timestamp = resolvedTimestamp now req := by
  unfold resolveTimestamp resolvedTimestamp
  split <;> rfl

theorem resolveTimestamp_fields (now : Time) (req : SignatureRequest α) :
    (resolveTimestamp now req).Method = req.Method ∧
    (resolveTimestamp now req).URL = req.URL ∧
    (resolveTimestamp now req).ClientID = req.ClientID ∧
    (resolveTimestamp now req).PrivateKey = req.PrivateKey ∧
    (resolveTimestamp now req).AccessToken = req.AccessToken ∧
    (resolveTimestamp now req).SecretKey = req.SecretKey := by
  unfold resolveTimestamp
  split <;> simp

/-- `GetPKCS8RSAPrivateKey` never answers a nil key with a nil error. -/
theorem GetPKCS8RSAPrivateKey_ok {L : Lib α} {pKey : Bytes} {key : Option RSAPrivateKey}
    (h : GetPKCS8RSAPrivateKey L pKey = (key, none)) : ∃ k, key = some k := by
  unfold GetPKCS8RSAPrivateKey at h
  split at h
  · simp at h
  · split at h
    · simp at h
    · simp only [Prod.mk.injEq, and_true] at h
      exact ⟨_, h.symm⟩
    · simp at h

/-- What `GenerateBase64EncodedSHA256withRSA` returns without an error. -/
theorem GenerateBase64EncodedSHA256withRSA_ok {L : Lib α} {rand : RandReader}
    {message signature : Bytes} {key : Option RSAPrivateKey}
    (h : GenerateBase64EncodedSHA256withRSA L rand message key = (signature, none)) :
    ∃ sig, L.signPKCS1v15 rand key (L.sha256Sum message) = (sig, none) ∧
      signature = base64EncodeToString sig := by
  unfold GenerateBase64EncodedSHA256withRSA at h
  simp only at h
  split at h
  · simp at h
  · rename_i sig hs
    simp only [Prod.mk.injEq, and_true] at h
    exact ⟨sig, hs, h.symm⟩

/-- What `GenerateBase64EncodedHMAC512WithSecretKey` returns without an error. -/
theorem GenerateBase64EncodedHMAC512WithSecretKey_ok {L : Lib α}
    {secretKey data signature : Bytes}
    (h : GenerateBase64EncodedHMAC512WithSecretKey L secretKey data = (signature, none)) :
    signature = base64EncodeToString (L.hmacSum secretKey data) := by
  unfold GenerateBase64EncodedHMAC512WithSecretKey at h
  split at h
  · simp at h
  · simp only [Prod.mk.injEq, and_true] at h
    exact h.symm

end Lemmas

section Generators

variable {α : Type}

/-- Inversion of a successful `GenerateSignatureForTransactions`. -/
theorem GenerateSignatureForTransactions_ok {L : Lib α} {now : Time} {rand : RandReader}
    {req : SignatureRequest α} {resp : SignatureResponse}
    (h : GenerateSignatureForTransactions L now rand req = (some resp, none)) :
    ∃ key sig,
      (serialisedBody L req.Body ≠ [] → (jsonCompact (serialisedBody L req.Body)).2 = none) ∧
      GetPKCS8RSAPrivateKey L req.PrivateKey = (some key, none) ∧
      L.signPKCS1v15 rand (some key) (L.sha256Sum resp.StringToSign) = (sig, none) ∧
      resp =
        { Signature := base64EncodeToString sig
          Timestamp := resolvedTimestamp now req
          StringToSign := req.Method ++ str ":" ++ req.URL ++ str ":" ++
            digestSegment L req.Body ++ str ":" ++ resolvedTimestamp now req
          Headers := [(str "X-TIMESTAMP", resolvedTimestamp now req),
            (str "X-SIGNATURE", base64EncodeToString sig)] } := by
  unfold GenerateSignatureForTransactions at h
  split at h
  · simp at h
  · rename_i enc henc
    obtain ⟨hD, hcompact⟩ := encodeRequestBody_ok henc
    simp only at h
    split at h
    · simp at h
    · rename_i key hkey
      split at h
      · simp at h
      · rename_i signature hsig
        obtain ⟨sig, hs, hsignature⟩ := GenerateBase64EncodedSHA256withRSA_ok hsig
        rw [(resolveTimestamp_fields now req).2.2.2.1] at hkey
        obtain ⟨k, hk⟩ := GetPKCS8RSAPrivateKey_ok hkey
        subst hk
        simp only [Prod.mk.injEq, Option.some.injEq, and_true] at h
        have hmsg : stringsJoin [(resolveTimestamp now req).Method, (resolveTimestamp now req).URL,
            stringsToLower L.unicodeLower enc, (resolveTimestamp now req).Timestamp] (str ":") =
            req.Method ++ str ":" ++ req.URL ++ str ":" ++ digestSegment L req.Body ++ str ":" ++
              resolvedTimestamp now req := by
          rw [hD, stringsToLower_digestSegment, resolveTimestamp_Timestamp,
            (resolveTimestamp_fields now req).1, (resolveTimestamp_fields now req).2.1]
          simp [stringsJoin, List.append_assoc]
        rw [hmsg] at hs h
        rw [resolveTimestamp_Timestamp, hsignature] at h
        refine ⟨k, sig, hcompact, hkey, ?_, h.symm⟩
        rw [← h]; exact hs

/-- Inversion of a successful `GenerateSignatureForTransactionsHMAC512`. -/
theorem GenerateSignatureForTransactionsHMAC512_ok {L : Lib α} {now : Time}
    {req : SignatureRequest α} {resp : SignatureResponse}
    (h : GenerateSignatureForTransactionsHMAC512 L now req = (some resp, none)) :
    (serialisedBody L req.Body ≠ [] → (jsonCompact (serialisedBody L req.Body)).2 = none) ∧
    resp =
      { Signature := base64EncodeToString (L.hmacSum req.SecretKey
          (req.Method ++ str ":" ++ req.URL ++ str ":" ++ req.AccessToken ++ str ":" ++
            digestSegment L req.Body ++ str ":" ++ resolvedTimestamp now req))
        Timestamp := resolvedTimestamp now req
        StringToSign := req.Method ++ str ":" ++ req.URL ++ str ":" ++ req.AccessToken ++
          str ":" ++ digestSegment L req.Body ++ str ":" ++ resolvedTimestamp now req
        Headers := [(str "X-TIMESTAMP", resolvedTimestamp now req),
          (str "X-SIGNATURE", base64EncodeToString (L.hmacSum req.SecretKey
            (req.Method ++ str ":" ++ req.URL ++ str ":" ++ req.AccessToken ++ str ":" ++
              digestSegment L req.Body ++ str ":" ++ resolvedTimestamp now req)))] } := by
  unfold GenerateSignatureForTransactionsHMAC512 at h
  split at h
  · simp at h
  · rename_i enc henc
    obtain ⟨hD, hcompact⟩ := encodeRequestBody_ok henc
    simp only at h
    split at h
    · simp at h
    · rename_i signature hsig
      have hsignature := GenerateBase64EncodedHMAC512WithSecretKey_ok hsig
      simp only [Prod.mk.injEq, Option.some.injEq, and_true] at h
      have hmsg : stringsJoin [(resolveTimestamp now req).Method, (resolveTimestamp now req).URL,
          (resolveTimestamp now req).AccessToken, stringsToLower L.unicodeLower enc,
          (resolveTimestamp now req).Timestamp] (str ":") =
          req.Method ++ str ":" ++ req.URL ++ str ":" ++ req.AccessToken ++ str ":" ++
            digestSegment L req.Body ++ str ":" ++ resolvedTimestamp now req := by
        rw [hD, stringsToLower_digestSegment, resolveTimestamp_Timestamp,
          (resolveTimestamp_fields now req).1, (resolveTimestamp_fields now req).2.1,
          (resolveTimestamp_fields now req).2.2.2.2.1]
        simp [stringsJoin, List.append_assoc]
      rw [hmsg, (resolveTimestamp_fields now req).2.2.2.2.2] at hsignature
      rw [hmsg, resolveTimestamp_Timestamp, hsignature] at h
      exact ⟨hcompact, h.symm⟩

/-- Inversion of a successful `GenerateSignatureForToken`. -/
theorem GenerateSignatureForToken_ok {L : Lib α} {now : Time} {rand : RandReader}
    {req : SignatureRequest α} {resp : SignatureResponse}
    (h : GenerateSignatureForToken L now rand req = (some resp, none)) :
    ∃ key sig,
      GetPKCS8RSAPrivateKey L req.PrivateKey = (some key, none) ∧
      L.signPKCS1v15 rand (some key) (L.sha256Sum resp.StringToSign) = (sig, none) ∧
      resp =
        { Signature := base64EncodeToString sig
          Timestamp := resolvedTimestamp now req
          StringToSign := req.ClientID ++ str "|" ++ resolvedTimestamp now req
          Headers := [(str "X-TIMESTAMP", resolvedTimestamp now req),
            (str "X-SIGNATURE", base64EncodeToString sig)] } := by
  unfold GenerateSignatureForToken at h
  simp only at h
  split at h
  · simp at h
  · rename_i key hkey
    split at h
    · simp at h
    · rename_i signature hsig
      obtain ⟨sig, hs, hsignature⟩ := GenerateBase64EncodedSHA256withRSA_ok hsig
      rw [(resolveTimestamp_fields now req).2.2.2.1] at hkey
      obtain ⟨k, hk⟩ := GetPKCS8RSAPrivateKey_ok hkey
      subst hk
      simp only [Prod.mk.injEq, Option.some.injEq, and_true] at h
      have hmsg : stringsJoin [(resolveTimestamp now req).ClientID,
          (resolveTimestamp now req).Timestamp] (str "|") =
          req.ClientID ++ str "|" ++ resolvedTimestamp now req := by
        rw [resolveTimestamp_Timestamp, (resolveTimestamp_fields now req).2.2.1]
        simp [stringsJoin]
      rw [hmsg] at hs h
      rw [resolveTimestamp_Timestamp, hsignature] at h
      refine ⟨k, sig, hkey, ?_, h.symm⟩
      rw [← h]; exact hs

end Generators

/-! ### The scanner drops exactly the insignificant whitespace -/

section ScannerLemmas

theorem isSpace_iff (c : Nat) : isSpace c = true ↔ c = 32 ∨ c = 9 ∨ c = 13 ∨ c = 10 := by
  simp [isSpace, or_assoc]

theorem isSpace_false_iff (c : Nat) :
    isSpace c = false ↔ c ≠ 32 ∧ c ≠ 9 ∧ c ≠ 13 ∧ c ≠ 10 := by
  simp [isSpace, and_assoc]

theorem isDigit_iff (c : Nat) : isDigit c = true ↔ 48 ≤ c ∧ c ≤ 57 := by
  simp [isDigit]

theorem SimStep.bad {l : Lexical} {c : Nat} {s : Scanner} {ctx : String} {v : Nat} :
    SimStep l c ((s.error c ctx).1, v) := Or.inl ⟨rfl, rfl⟩

theorem SimStep.error {l : Lexical} {c : Nat} {s : Scanner} {ctx : String} :
    SimStep l c (s.error c ctx) := Or.inl ⟨rfl, rfl⟩

/-- A step that keeps the byte, outside string literals. -/
theorem SimStep.keepOutside {c v : Nat} {s : Scanner} (he : s.err = none)
    (hst : lexOf s.step = .outside) (hne : s.step ≠ .stateError) (hv : v < scanSkipSpace)
    (hsp : isSpace c = false) (hq : c ≠ 34) : SimStep .outside c (s, v) := by
  refine Or.inr ⟨he, hne, ?_, ?_, ?_⟩
  · simp only [scanSkipSpace, scanError] at *; omega
  · simp only [insignificant, hsp, Bool.and_false, scanSkipSpace] at *
    constructor
    · intro h; omega
    · intro h; exact absurd h (by simp)
  · simp [lexNext, hq, hst]

/-- A step that drops a whitespace byte outside string literals. -/
theorem SimStep.skip {c v : Nat} {s : Scanner} (he : s.err = none)
    (hst : lexOf s.step = .outside) (hne : s.step ≠ .stateError)
    (hv : v = scanSkipSpace ∨ v = scanEnd)
    (hsp : isSpace c = true) : SimStep .outside c (s, v) := by
  have hq : c ≠ 34 := by
    rcases (isSpace_iff c).1 hsp with h | h | h | h <;> omega
  refine Or.inr ⟨he, hne, ?_, ?_, ?_⟩
  · simp only [scanSkipSpace, scanEnd, scanError] at *; omega
  · simp only [insignificant, hsp, scanSkipSpace, scanEnd] at *
    constructor
    · intro _; simp
    · intro _; omega
  · simp [lexNext, hq, hst]

theorem sim_stateEndTop (s : Scanner) (c : Nat) (hs : s.err = none)
    (hst : s.step = .stateEndTop) : SimStep .outside c (stateEndTop s c) := by
  unfold stateEndTop
  cases hsp : isSpace c
  · simp only [Bool.not_false, if_true]
    exact SimStep.bad
  · simp only [Bool.not_true, Bool.false_eq_true, if_false]
    exact SimStep.skip hs (by rw [hst]; rfl) (by rw [hst]; simp) (Or.inr rfl) hsp

theorem sim_popParseState (s : Scanner) (c v : Nat) (hs : s.err = none)
    (hv : v < scanSkipSpace) (hsp : isSpace c = false) (hq : c ≠ 34) :
    SimStep .outside c (s.popParseState, v) := by
  unfold Scanner.popParseState
  simp only
  split
  · exact SimStep.keepOutside hs rfl (by simp) hv hsp hq
  · exact SimStep.keepOutside hs rfl (by simp) hv hsp hq

theorem sim_stateEndValue (s : Scanner) (c : Nat) (hs : s.err = none) :
    SimStep .outside c (stateEndValue s c) := by
  unfold stateEndValue
  split
  · exact sim_stateEndTop _ c hs rfl
  · rename_i ps rest hps
    cases hsp : isSpace c
    · have hsp2 := (isSpace_false_iff c).1 hsp
      simp only [Bool.false_eq_true, if_false]
      cases ps
      · simp only
        split
        · exact SimStep.keepOutside hs rfl (by simp) (by simp [scanObjectKey, scanSkipSpace]) hsp
            (by omega)
        · exact SimStep.error
      · simp only
        split
        · exact SimStep.keepOutside hs rfl (by simp) (by simp [scanObjectValue, scanSkipSpace])
            hsp (by omega)
        · split
          · exact sim_popParseState s c _ hs (by simp [scanEndObject, scanSkipSpace]) hsp
              (by omega)
          · exact SimStep.error
      · simp only
        split
        · exact SimStep.keepOutside hs rfl (by simp) (by simp [scanArrayValue, scanSkipSpace])
            hsp (by omega)
        · split
          · exact sim_popParseState s c _ hs (by simp [scanEndArray, scanSkipSpace]) hsp
              (by omega)
          · exact SimStep.error
    · simp only [if_true]
      exact SimStep.skip hs rfl (by simp) (Or.inl rfl) hsp

theorem sim_pushParseState (s : Scanner) (c v : Nat) (p : ParseState) (hs : s.err = none)
    (hst : lexOf s.step = .outside) (hne : s.step ≠ .stateError)
    (hv : v < scanSkipSpace) (hsp : isSpace c = false) (hq : c ≠ 34) :
    SimStep .outside c (s.pushParseState c p v) := by
  unfold Scanner.pushParseState
  simp only
  split
  · exact SimStep.keepOutside hs hst hne hv hsp hq
  · exact SimStep.error

theorem sim_stateBeginValue (s : Scanner) (c : Nat) (hs : s.err = none)
    (hst : lexOf s.step = .outside) (hne : s.step ≠ .stateError) :
    SimStep .outside c (stateBeginValue s c) := by
  unfold stateBeginValue
  cases hsp : isSpace c
  · have hsp2 := (isSpace_false_iff c).1 hsp
    simp only [Bool.false_eq_true, if_false]
    split
    · exact sim_pushParseState _ c _ _ hs rfl (by simp)
        (by simp [scanBeginObject, scanSkipSpace]) hsp (by omega)
    split
    · exact sim_pushParseState _ c _ _ hs rfl (by simp)
        (by simp [scanBeginArray, scanSkipSpace]) hsp (by omega)
    split
    · rename_i h34
      refine Or.inr ⟨hs, by simp, by simp [scanBeginLiteral, scanError], ?_, ?_⟩
      · simp [insignificant, hsp, scanBeginLiteral, scanSkipSpace]
      · simp [lexNext, h34, lexOf]
    have keep : ∀ st : StepFn, lexOf st = .outside → st ≠ .stateError → c ≠ 34 →
        SimStep .outside c ({ s with step := st }, scanBeginLiteral) := fun st h1 h2 h3 =>
      SimStep.keepOutside hs h1 h2 (by simp [scanBeginLiteral, scanSkipSpace]) hsp h3
    split
    · exact keep _ rfl (by simp) (by omega)
    split
    · exact keep _ rfl (by simp) (by omega)
    split
    · exact keep _ rfl (by simp) (by omega)
    split
    · exact keep _ rfl (by simp) (by omega)
    split
    · exact keep _ rfl (by simp) (by omega)
    split
    · exact keep _ rfl (by simp) (by omega)
    · exact SimStep.error
  · simp only [if_true]
    exact SimStep.skip hs hst hne (Or.inl rfl) hsp

theorem sim_stateBeginValueOrEmpty (s : Scanner) (c : Nat) (hs : s.err = none)
    (hst : lexOf s.step = .outside) (hne : s.step ≠ .stateError) :
    SimStep .outside c (stateBeginValueOrEmpty s c) := by
  unfold stateBeginValueOrEmpty
  cases hsp : isSpace c
  · simp only [Bool.false_eq_true, if_false]
    split
    · exact sim_stateEndValue s c hs
    · exact sim_stateBeginValue s c hs hst hne
  · simp only [if_true]
    exact SimStep.skip hs hst hne (Or.inl rfl) hsp

theorem sim_stateBeginString (s : Scanner) (c : Nat) (hs : s.err = none)
    (hst : lexOf s.step = .outside) (hne : s.step ≠ .stateError) :
    SimStep .outside c (stateBeginString s c) := by
  unfold stateBeginString
  cases hsp : isSpace c
  · simp only [Bool.false_eq_true, if_false]
    split
    · rename_i h34
      refine Or.inr ⟨hs, by simp, by simp [scanBeginLiteral, scanError], ?_, ?_⟩
      · simp [insignificant, hsp, scanBeginLiteral, scanSkipSpace]
      · simp [lexNext, h34, lexOf]
    · exact SimStep.error
  · simp only [if_true]
    exact SimStep.skip hs hst hne (Or.inl rfl) hsp

theorem sim_stateBeginStringOrEmpty (s : Scanner) (c : Nat) (hs : s.err = none)
    (hst : lexOf s.step = .outside) (hne : s.step ≠ .stateError) :
    SimStep .outside c (stateBeginStringOrEmpty s c) := by
  unfold stateBeginStringOrEmpty
  cases hsp : isSpace c
  · simp only [Bool.false_eq_true, if_false]
    split
    · exact sim_stateEndValue _ c hs
    · exact sim_stateBeginString s c hs hst hne
  · simp only [if_true]
    exact SimStep.skip hs hst hne (Or.inl rfl) hsp

/-- A step that keeps a byte inside a string literal. -/
theorem SimStep.keepInside {l : Lexical} {c v : Nat} {s : Scanner} (he : s.err = none)
    (hne : s.step ≠ .stateError) (hv : v = scanContinue) (hl : l ≠ .outside)
    (hnext : lexOf s.step = lexNext l c) : SimStep l c (s, v) := by
  refine Or.inr ⟨he, hne, ?_, ?_, hnext⟩
  · simp [hv, scanContinue, scanError]
  · simp [hv, scanContinue, scanSkipSpace, insignificant, hl]

theorem sim_stateInString (s : Scanner) (c : Nat) (hs : s.err = none)
    (hst : s.step = .stateInString) : SimStep .inString c (stateInString s c) := by
  unfold stateInString
  split
  · rename_i h
    exact SimStep.keepInside hs (by simp) rfl (by simp) (by simp [lexNext, h, lexOf])
  split
  · rename_i h1 h
    exact SimStep.keepInside hs (by simp) rfl (by simp) (by simp [lexNext, h, lexOf])
  split
  · exact SimStep.error
  · rename_i h1 h2 _
    exact SimStep.keepInside hs (by rw [hst]; simp) rfl (by simp)
      (by simp [lexNext, h1, h2, hst, lexOf])

theorem sim_stateInStringEsc (s : Scanner) (c : Nat) (hs : s.err = none) :
    SimStep .afterBackslash c (stateInStringEsc s c) := by
  unfold stateInStringEsc
  split
  · exact SimStep.keepInside hs (by simp) rfl (by simp) (by simp [lexNext, lexOf])
  split
  · exact SimStep.keepInside hs (by simp) rfl (by simp) (by simp [lexNext, lexOf])
  · exact SimStep.error

theorem sim_stateInStringEscHex (next : StepFn) (s : Scanner) (c : Nat) (hs : s.err = none)
    (hnext : lexOf next = .inString) (hne : next ≠ .stateError) :
    SimStep .inString c (stateInStringEscHex next s c) := by
  unfold stateInStringEscHex
  split
  · rename_i hhex
    have h : c ≠ 34 ∧ c ≠ 92 := by
      simp only [isHexDigit, isDigit, Bool.or_eq_true, Bool.and_eq_true, decide_eq_true_eq]
        at hhex
      omega
    exact SimStep.keepInside hs hne rfl (by simp) (by simp [lexNext, h.1, h.2, hnext])
  · exact SimStep.error

theorem sim_state0 (s : Scanner) (c : Nat) (hs : s.err = none) :
    SimStep .outside c (state0 s c) := by
  unfold state0
  split
  · exact SimStep.keepOutside hs rfl (by simp) (by simp [scanContinue, scanSkipSpace])
      (by rw [isSpace_false_iff]; omega) (by omega)
  split
  · exact SimStep.keepOutside hs rfl (by simp) (by simp [scanContinue, scanSkipSpace])
      (by rw [isSpace_false_iff]; omega) (by omega)
  · exact sim_stateEndValue s c hs

theorem digit_facts {c : Nat} (h : isDigit c = true) : isSpace c = false ∧ c ≠ 34 := by
  rw [isDigit_iff] at h
  rw [isSpace_false_iff]
  omega

theorem sim_state1 (s : Scanner) (c : Nat) (hs : s.err = none) :
    SimStep .outside c (state1 s c) := by
  unfold state1
  split
  · rename_i h
    exact SimStep.keepOutside hs rfl (by simp) (by simp [scanContinue, scanSkipSpace])
      (digit_facts h).1 (digit_facts h).2
  · exact sim_state0 s c hs

theorem sim_stateNeg (s : Scanner) (c : Nat) (hs : s.err = none) :
    SimStep .outside c (stateNeg s c) := by
  unfold stateNeg
  split
  · exact SimStep.keepOutside hs rfl (by simp) (by simp [scanContinue, scanSkipSpace])
      (by rw [isSpace_false_iff]; omega) (by omega)
  split
  · exact SimStep.keepOutside hs rfl (by simp) (by simp [scanContinue, scanSkipSpace])
      (by rw [isSpace_false_iff]; omega) (by omega)
  · exact SimStep.error

theorem sim_stateDot (s : Scanner) (c : Nat) (hs : s.err = none) :
    SimStep .outside c (stateDot s c) := by
  unfold stateDot
  split
  · rename_i h
    exact SimStep.keepOutside hs rfl (by simp) (by simp [scanContinue, scanSkipSpace])
      (digit_facts h).1 (digit_facts h).2
  · exact SimStep.error

theorem sim_stateDot0 (s : Scanner) (c : Nat) (hs : s.err = none)
    (hst : lexOf s.step = .outside) (hne : s.step ≠ .stateError) :
    SimStep .outside c (stateDot0 s c) := by
  unfold stateDot0
  split
  · rename_i h
    exact SimStep.keepOutside hs hst hne (by simp [scanContinue, scanSkipSpace])
      (digit_facts h).1 (digit_facts h).2
  split
  · exact SimStep.keepOutside hs rfl (by simp) (by simp [scanContinue, scanSkipSpace])
      (by rw [isSpace_false_iff]; omega) (by omega)
  · exact sim_stateEndValue s c hs

theorem sim_stateESign (s : Scanner) (c : Nat) (hs : s.err = none) :
    SimStep .outside c (stateESign s c) := by
  unfold stateESign
  split
  · rename_i h
    exact SimStep.keepOutside hs rfl (by simp) (by simp [scanContinue, scanSkipSpace])
      (digit_facts h).1 (digit_facts h).2
  · exact SimStep.error

theorem sim_stateE (s : Scanner) (c : Nat) (hs : s.err = none) :
    SimStep .outside c (stateE s c) := by
  unfold stateE
  split
  · exact SimStep.keepOutside hs rfl (by simp) (by simp [scanContinue, scanSkipSpace])
      (by rw [isSpace_false_iff]; omega) (by omega)
  · exact sim_stateESign s c hs

theorem sim_stateE0 (s : Scanner) (c : Nat) (hs : s.err = none)
    (hst : lexOf s.step = .outside) (hne : s.step ≠ .stateError) :
    SimStep .outside c (stateE0 s c) := by
  unfold stateE0
  split
  · rename_i h
    exact SimStep.keepOutside hs hst hne (by simp [scanContinue, scanSkipSpace])
      (digit_facts h).1 (digit_facts h).2
  · exact sim_stateEndValue s c hs

theorem sim_stateKeyword (want : Nat) (next : StepFn) (ctx : String) (s : Scanner) (c : Nat)
    (hs : s.err = none) (hw : isSpace want = false) (hq : want ≠ 34)
    (hnext : lexOf next = .outside) (hne : next ≠ .stateError) :
    SimStep .outside c (stateKeyword want next ctx s c) := by
  unfold stateKeyword
  split
  · rename_i h
    subst h
    exact SimStep.keepOutside hs hnext hne (by simp [scanContinue, scanSkipSpace]) hw hq
  · exact SimStep.error

/-- Every step of a scanner that has recorded no error agrees with the lexical
reading of the byte, or records an error. -/
theorem run_sim (s : Scanner) (c : Nat) (hs : s.err = none) (hne : s.step ≠ .stateError) :
    SimStep (lexOf s.step) c (s.run c) := by
  unfold Scanner.run
  cases hst : s.step <;> simp only [lexOf]
  · exact sim_stateBeginValueOrEmpty s c hs (by rw [hst]; rfl) hne
  · exact sim_stateBeginValue s c hs (by rw [hst]; rfl) hne
  · exact sim_stateBeginStringOrEmpty s c hs (by rw [hst]; rfl) hne
  · exact sim_stateBeginString s c hs (by rw [hst]; rfl) hne
  · exact sim_stateEndValue s c hs
  · exact sim_stateEndTop s c hs hst
  · exact sim_stateInString s c hs hst
  · exact sim_stateInStringEsc s c hs
  · exact sim_stateInStringEscHex _ s c hs rfl (by simp)
  · exact sim_stateInStringEscHex _ s c hs rfl (by simp)
  · exact sim_stateInStringEscHex _ s c hs rfl (by simp)
  · exact sim_stateInStringEscHex _ s c hs rfl (by simp)
  · exact sim_stateNeg s c hs
  · exact sim_state1 s c hs
  · exact sim_state0 s c hs
  · exact sim_stateDot s c hs
  · exact sim_stateDot0 s c hs (by rw [hst]; rfl) hne
  · exact sim_stateE s c hs
  · exact sim_stateESign s c hs
  · exact sim_stateE0 s c hs (by rw [hst]; rfl) hne
  · exact sim_stateKeyword _ _ _ s c hs (by decide) (by decide) rfl (by simp)
  · exact sim_stateKeyword _ _ _ s c hs (by decide) (by decide) rfl (by simp)
  · exact sim_stateKeyword _ _ _ s c hs (by decide) (by decide) rfl (by simp)
  · exact sim_stateKeyword _ _ _ s c hs (by decide) (by decide) rfl (by simp)
  · exact sim_stateKeyword _ _ _ s c hs (by decide) (by decide) rfl (by simp)
  · exact sim_stateKeyword _ _ _ s c hs (by decide) (by decide) rfl (by simp)
  · exact sim_stateKeyword _ _ _ s c hs (by decide) (by decide) rfl (by simp)
  · exact sim_stateKeyword _ _ _ s c hs (by decide) (by decide) rfl (by simp)
  · exact sim_stateKeyword _ _ _ s c hs (by decide) (by decide) rfl (by simp)
  · exact sim_stateKeyword _ _ _ s c hs (by decide) (by decide) rfl (by simp)
  · exact absurd hst hne


/-- In `stateError` the loop of `Compact` stops at once. -/
theorem compactLoop_stateError (s : Scanner) (dst src : Bytes) (hst : s.step = .stateError) :
    (compactLoop s dst src).1 = s := by
  cases src with
  | nil => rfl
  | cons c rest =>
    have hrun : s.run c = (s, scanError) := by
      unfold Scanner.run; rw [hst]
    simp [compactLoop, hrun, scanError, scanSkipSpace]

/-- The loop of `Compact` either ends with a recorded error or has copied the
source without its insignificant whitespace. -/
theorem compactLoop_strip (src : Bytes) : ∀ (s : Scanner) (dst : Bytes), s.err = none →
    s.step ≠ .stateError →
    (compactLoop s dst src).1.err.isSome = true ∨
    (compactLoop s dst src).2 = dst ++ stripWhitespace (lexOf s.step) src := by
  induction src with
  | nil =>
    intro s dst _ _
    right
    simp [compactLoop, stripWhitespace]
  | cons c rest ih =>
    intro s dst hs hne
    rcases run_sim s c hs hne with ⟨hbad, hstop⟩ | ⟨he, hne2, hv, hskip, hlex⟩
    · left
      have h1 : (compactLoop s dst (c :: rest)).1 = (s.run c).1 := by
        simp only [compactLoop]
        split
        · split
          · rfl
          · exact compactLoop_stateError _ _ _ hstop
        · exact compactLoop_stateError _ _ _ hstop
      rw [h1]; exact hbad
    · simp only [compactLoop, stripWhitespace]
      by_cases hge : scanSkipSpace ≤ (s.run c).2
      · have hins := hskip.1 hge
        rw [if_pos hge, if_neg hv, if_pos hins, ← hlex]
        exact ih (s.run c).1 dst he hne2
      · have hins : ¬ insignificant (lexOf s.step) c = true := fun h => hge (hskip.2 h)
        rw [if_neg hge, if_neg hins, ← hlex]
        rcases ih (s.run c).1 (dst ++ [c]) he hne2 with h | h
        · exact Or.inl h
        · right
          rw [h]; simp

/-- The end-of-input check fails on a scanner that has recorded an error. -/
theorem eof_of_err (s : Scanner) (h : s.err.isSome = true) : s.eof.2 = scanError := by
  unfold Scanner.eof
  rw [if_pos h]

/-- A failed end-of-input check always carries an error value. -/
theorem eof_err_of_scanError (s : Scanner) (h : s.eof.2 = scanError) :
    s.eof.1.err.isSome = true := by
  unfold Scanner.eof at h ⊢
  split
  · assumption
  · split
    · rename_i h1 h2
      rw [if_neg h1, if_pos h2] at h
      simp [scanEnd, scanError] at h
    · simp only
      split
      · rename_i h1 h2 h3
        rw [if_neg h1, if_neg h2] at h
        simp only at h
        rw [if_pos h3] at h
        simp [scanEnd, scanError] at h
      · split
        · rfl
        · rename_i h4
          cases hh : ((s.run 32).1).err with
          | none => simp [hh] at h4
          | some e => rfl

/-- A successful `json.Compact` writes the source without its insignificant
whitespace. -/
theorem jsonCompact_eq_strip {src m : Bytes} (h : jsonCompact src = (m, none)) :
    m = stripWhitespace .outside src := by
  unfold jsonCompact at h
  simp only at h
  split at h
  · rename_i herr
    have := eof_err_of_scanError _ herr
    simp only [Prod.mk.injEq] at h
    rw [h.2] at this
    simp at this
  · rename_i hok
    simp only [Prod.mk.injEq, and_true] at h
    rcases compactLoop_strip src newScanner [] rfl (by simp [newScanner]) with hbad | hgood
    · exact absurd (eof_of_err _ hbad) hok
    · rw [← h, hgood]; rfl

end ScannerLemmas

/-! ### Decimal digits and the timestamp layout -/

section TimeLemmas

theorem toDigitsCore_append (b : Nat) :
    ∀ (f n : Nat) (ds : List Char),
      Nat.toDigitsCore b f n ds = Nat.toDigitsCore b f n [] ++ ds := by
  intro f
  induction f with
  | zero => intro n ds; simp [Nat.toDigitsCore]
  | succ f ih =>
    intro n ds
    simp only [Nat.toDigitsCore]
    split
    · simp
    · rw [ih (n / b) (Nat.digitChar (n % b) :: ds), ih (n / b) [Nat.digitChar (n % b)]]
      simp

theorem toDigitsCore_fuel :
    ∀ (f g n : Nat), n < f → n < g →
      Nat.toDigitsCore 10 f n [] = Nat.toDigitsCore 10 g n [] := by
  intro f
  induction f with
  | zero => intro g n h; omega
  | succ f ih =>
    intro g n hf hg
    cases g with
    | zero => omega
    | succ g =>
      simp only [Nat.toDigitsCore]
      split
      · rfl
      · rename_i hne
        rw [toDigitsCore_append 10 f, toDigitsCore_append 10 g,
          ih g (n / 10) (by omega) (by omega)]

theorem digitChar_toNat (m : Nat) (h : m < 10) : (Nat.digitChar m).toNat = 48 + m := by
  interval_cases m <;> rfl

theorem decimalDigits_small (n : Nat) (h : n < 10) : decimalDigits n = [48 + n] := by
  unfold decimalDigits Nat.toDigits
  simp only [Nat.toDigitsCore]
  have h0 : n / 10 = 0 := by omega
  have h1 : n % 10 = n := by omega
  simp [h0, h1, digitChar_toNat n h]

theorem toDigits_large (n : Nat) (h : 10 ≤ n) :
    Nat.toDigits 10 n = Nat.toDigits 10 (n / 10) ++ [Nat.digitChar (n % 10)] := by
  have h0 : n / 10 ≠ 0 := by omega
  have step : Nat.toDigitsCore 10 (n + 1) n [] =
      Nat.toDigitsCore 10 n (n / 10) [Nat.digitChar (n % 10)] := by
    rw [Nat.toDigitsCore]
    simp only [if_neg h0]
  unfold Nat.toDigits
  rw [step, toDigitsCore_append 10 n,
    toDigitsCore_fuel n (n / 10 + 1) (n / 10) (by omega) (by omega)]

theorem decimalDigits_large (n : Nat) (h : 10 ≤ n) :
    decimalDigits n = decimalDigits (n / 10) ++ [48 + n % 10] := by
  unfold decimalDigits
  rw [toDigits_large n h, List.map_append, List.map_singleton,
    digitChar_toNat (n % 10) (by omega)]

theorem fixedWidthDecimal_zero (w : Nat) : fixedWidthDecimal w 0 = List.replicate w 48 := by
  induction w with
  | zero => rfl
  | succ w ih =>
    simp only [fixedWidthDecimal, Nat.zero_div, ih, Nat.zero_mod, Nat.add_zero]
    exact (List.replicate_succ' w 48).symm

theorem length_fixedWidthDecimal : ∀ (w n : Nat), (fixedWidthDecimal w n).length = w := by
  intro w
  induction w with
  | zero => intro n; rfl
  | succ w ih => intro n; simp [fixedWidthDecimal, ih]

theorem mem_fixedWidthDecimal :
    ∀ (w n : Nat), ∀ c ∈ fixedWidthDecimal w n, 48 ≤ c ∧ c ≤ 57 := by
  intro w
  induction w with
  | zero => intro n c hc; simp [fixedWidthDecimal] at hc
  | succ w ih =>
    intro n c hc
    simp only [fixedWidthDecimal, List.mem_append, List.mem_singleton] at hc
    rcases hc with hc | hc
    · exact ih _ c hc
    · omega

theorem length_decimalDigits_le : ∀ (w n : Nat), 0 < w → n < 10 ^ w →
    (decimalDigits n).length ≤ w := by
  intro w n hw hn
  unfold decimalDigits Nat.toDigits
  rw [List.length_map]
  exact Nat.toDigitsCore_length 10 (by decide) (n + 1) n w hn hw

theorem padded_decimalDigits : ∀ (w n : Nat), 0 < w → n < 10 ^ w →
    List.replicate (w - (decimalDigits n).length) 48 ++ decimalDigits n =
      fixedWidthDecimal w n := by
  intro w
  induction w with
  | zero => intro n hw; omega
  | succ w ih =>
    intro n _ hn
    by_cases hsmall : n < 10
    · rw [decimalDigits_small n hsmall]
      have h0 : n / 10 = 0 := by omega
      have h1 : n % 10 = n := by omega
      simp [fixedWidthDecimal, h0, h1, fixedWidthDecimal_zero]
    · have hlarge : 10 ≤ n := by omega
      have hw : 0 < w := by
        rcases Nat.eq_zero_or_pos w with h | h
        · subst h; simp at hn; omega
        · exact h
      have hdiv : n / 10 < 10 ^ w := by
        rw [Nat.pow_succ] at hn
        exact Nat.div_lt_of_lt_mul (by rw [Nat.mul_comm]; exact hn)
      rw [decimalDigits_large n hlarge]
      simp only [fixedWidthDecimal, List.length_append, List.length_singleton]
      rw [← ih (n / 10) hw hdiv, Nat.add_sub_add_right, List.append_assoc]

/-- `appendInt` on a non-negative number that fits the width. -/
theorem appendInt_fixed (b : Bytes) (x : Int) (w : Nat) (hw : 0 < w) (h0 : 0 ≤ x)
    (hx : x.natAbs < 10 ^ w) : appendInt b x w = b ++ fixedWidthDecimal w x.natAbs := by
  unfold appendInt
  have hneg : ¬ x < 0 := by omega
  simp only [if_neg hneg, List.append_nil, List.append_assoc]
  rw [padded_decimalDigits w _ hw hx]

theorem tdiv_natCast (n : Nat) : Int.tdiv (n : Int) 60 = ((n / 60 : Nat) : Int) := rfl

theorem tmod_natCast (n : Nat) : Int.tmod (n : Int) 60 = ((n % 60 : Nat) : Int) := rfl

/-- The sign and the magnitude of the zone, in minutes. -/
theorem zone_minutes (offset : Int) :
    (Int.tdiv offset 60 < 0 ↔ offset ≤ -60) ∧
    (if Int.tdiv offset 60 < 0 then -(Int.tdiv offset 60) else Int.tdiv offset 60) =
      ((offset.natAbs / 60 : Nat) : Int) := by
  obtain ⟨n, rfl | rfl⟩ := Int.eq_nat_or_neg offset
  · rw [tdiv_natCast, Int.natAbs_ofNat]
    have h : ¬ ((n / 60 : Nat) : Int) < 0 := by omega
    exact ⟨by omega, by rw [if_neg h]⟩
  · rw [Int.neg_tdiv, tdiv_natCast, Int.natAbs_neg, Int.natAbs_ofNat]
    refine ⟨by omega, ?_⟩
    split <;> omega

/-- The text of `formatISOMillis` on a time whose fields fit their widths. -/
theorem formatISOMillis_eq (t : Time) (hy0 : 0 ≤ t.year) (hy : t.year ≤ 9999)
    (hmo : t.month ≤ 12) (hd : t.day ≤ 31) (hh : t.hour ≤ 23) (hmi : t.minute ≤ 59)
    (hs : t.second ≤ 59) (hns : t.nanosecond ≤ 999999999)
    (hoff : t.offset.natAbs < 360000) :
    formatISOMillis t =
      fixedWidthDecimal 4 t.year.natAbs ++ [45] ++ fixedWidthDecimal 2 t.month ++ [45] ++
      fixedWidthDecimal 2 t.day ++ [84] ++ fixedWidthDecimal 2 t.hour ++ [58] ++
      fixedWidthDecimal 2 t.minute ++ [58] ++ fixedWidthDecimal 2 t.second ++ [46] ++
      fixedWidthDecimal 3 (t.nanosecond / 1000000) ++
      [if t.offset ≤ -60 then 45 else 43] ++
      fixedWidthDecimal 2 (t.offset.natAbs / 3600) ++ [58] ++
      fixedWidthDecimal 2 (t.offset.natAbs / 60 % 60) := by
  obtain ⟨hsign, hzone⟩ := zone_minutes t.offset
  unfold formatISOMillis
  simp only [hzone, tdiv_natCast, tmod_natCast]
  rw [appendInt_fixed _ t.year 4 (by decide) hy0 (by omega),
    appendInt_fixed _ (t.month : Int) 2 (by decide) (by omega) (by rw [Int.natAbs_ofNat]; omega),
    appendInt_fixed _ (t.day : Int) 2 (by decide) (by omega) (by rw [Int.natAbs_ofNat]; omega),
    appendInt_fixed _ (t.hour : Int) 2 (by decide) (by omega) (by rw [Int.natAbs_ofNat]; omega),
    appendInt_fixed _ (t.minute : Int) 2 (by decide) (by omega) (by rw [Int.natAbs_ofNat]; omega),
    appendInt_fixed _ (t.second : Int) 2 (by decide) (by omega) (by rw [Int.natAbs_ofNat]; omega),
    appendInt_fixed _ ((t.nanosecond / 1000000 : Nat) : Int) 3 (by decide) (by omega)
      (by rw [Int.natAbs_ofNat]; omega),
    appendInt_fixed _ ((t.offset.natAbs / 60 / 60 : Nat) : Int) 2 (by decide) (by omega)
      (by rw [Int.natAbs_ofNat]; omega),
    appendInt_fixed _ ((t.offset.natAbs / 60 % 60 : Nat) : Int) 2 (by decide) (by omega)
      (by rw [Int.natAbs_ofNat]; omega)]
  simp only [Int.natAbs_ofNat, Nat.div_div_eq_div_mul]
  by_cases hneg : t.offset ≤ -60
  · simp [hsign.2 hneg, hneg]
  · have : ¬ Int.tdiv t.offset 60 < 0 := fun h => hneg (hsign.1 h)
    simp [this, hneg]

theorem drop_leading (A s z1 c z2 : Bytes) (n : Nat) (h : A.length = n) :
    (A ++ s ++ z1 ++ c ++ z2).drop n = s ++ z1 ++ c ++ z2 := by
  subst h
  simp only [List.append_assoc, List.drop_left]

end TimeLemmas

/-! ### Validation -/

section ValidationLemmas

variable {α : Type}

theorem signatureType_facts :
    SignatureTypeTransactionsRSA ≠ [] ∧ SignatureTypeTransactionsHMAC ≠ [] ∧
    SignatureTypeToken ≠ [] ∧
    SignatureTypeTransactionsRSA ≠ SignatureTypeTransactionsHMAC ∧
    SignatureTypeTransactionsRSA ≠ SignatureTypeToken ∧
    SignatureTypeTransactionsHMAC ≠ SignatureTypeToken ∧
    SignatureTypeTransactionsRSA = str "TRANSACTIONS_RSA_SHA256" ∧
    SignatureTypeTransactionsHMAC = str "TRANSACTIONS_HMAC_SHA512" ∧
    SignatureTypeToken = str "TOKEN_RSA_SHA256" := by
  decide

/-- `Validate` leaves the request as it is. -/
theorem Validate_fst (r : SignatureRequest α) : r.Validate.1 = r := by
  unfold SignatureRequest.Validate
  split_ifs <;> rfl

/-- A request that passes `Validate` has one of the three signature types. -/
theorem Validate_ok_type (r : SignatureRequest α) (h : r.Validate.2 = none) :
    r.SignatureRequestType = SignatureTypeTransactionsRSA ∨
    r.SignatureRequestType = SignatureTypeTransactionsHMAC ∨
    r.SignatureRequestType = SignatureTypeToken := by
  unfold SignatureRequest.Validate at h
  split_ifs at h <;> simp_all

/-- No message of `Validate` is the text of the handler's default branch. -/
theorem Validate_message_ne (r : SignatureRequest α) (e : ValidationError)
    (h : r.Validate.2 = some e) : e.Message ≠ "Invalid signature type" := by
  unfold SignatureRequest.Validate at h
  split_ifs at h <;> simp only [Option.some.injEq, reduceCtorEq] at h <;> subst h <;> decide

/-- The field named by `Validate` is the first missing one. -/
theorem Validate_field (r : SignatureRequest α) :
    r.Validate.2.map (fun e => e.Field) = firstMissingField r := by
  obtain ⟨n1, n2, n3, _, _, _, e1, e2, e3⟩ := signatureType_facts
  unfold firstMissingField
  rw [← e1, ← e2, ← e3]
  clear e1 e2 e3
  by_cases h0 : r.SignatureRequestType = []
  · have a1 : r.SignatureRequestType ≠ SignatureTypeTransactionsRSA := by
      rw [h0]; exact n1.symm
    have a2 : r.SignatureRequestType ≠ SignatureTypeTransactionsHMAC := by
      rw [h0]; exact n2.symm
    have a3 : r.SignatureRequestType ≠ SignatureTypeToken := by
      rw [h0]; exact n3.symm
    unfold SignatureRequest.Validate
    simp only [if_pos h0, if_neg a1, if_neg a2, if_neg a3, Option.map]
  · unfold SignatureRequest.Validate
    simp only [if_neg h0]
    split_ifs <;> simp only [Option.map]

end ValidationLemmas

section HandlerLemmas

variable {α : Type}

set_option maxRecDepth 100000

/-! ### The handler -/

/-- The handler calls `validateAndRoute` on `requestToValidate`. -/
theorem HandleGenerateSignature_of_request (L : Lib α) (now : Time) (rand : RandReader)
    (keyFile : ReadFileResult) (decoded : SignatureRequest α × Option GoError)
    (req : SignatureRequest α) (h : requestToValidate keyFile decoded = some req) :
    HandleGenerateSignature L now rand keyFile decoded = validateAndRoute L now rand req := by
  rcases decoded with ⟨r, _ | e⟩
  · by_cases hk : r.PrivateKey = []
    · rcases hload : LoadDefaultPrivateKey keyFile with ⟨k, _ | err⟩
      · simp only [requestToValidate, if_pos hk, hload, Option.some.injEq] at h
        subst h
        simp only [HandleGenerateSignature, if_pos hk, hload]
      · simp only [requestToValidate, if_pos hk, hload, reduceCtorEq] at h
    · simp only [requestToValidate, if_neg hk, Option.some.injEq] at h
      subst h
      simp only [HandleGenerateSignature, if_neg hk]
  · simp only [requestToValidate, reduceCtorEq] at h

/-- Without a request to validate the handler answers 400 or 500 with one of its
two early messages. -/
theorem HandleGenerateSignature_of_none (L : Lib α) (now : Time) (rand : RandReader)
    (keyFile : ReadFileResult) (decoded : SignatureRequest α × Option GoError)
    (h : requestToValidate keyFile decoded = none) :
    (decoded.2 ≠ none ∧ HandleGenerateSignature L now rand keyFile decoded =
      respondWithError StatusBadRequest (.literal "Invalid request body")) ∨
    (decoded.2 = none ∧ ∃ err, (LoadDefaultPrivateKey keyFile).2 = some err ∧
      HandleGenerateSignature L now rand keyFile decoded =
        respondWithError StatusInternalServerError (.loadingDefaultKey err)) := by
  rcases decoded with ⟨r, _ | e⟩
  · right
    by_cases hk : r.PrivateKey = []
    · rcases hload : LoadDefaultPrivateKey keyFile with ⟨k, _ | err⟩
      · simp only [requestToValidate, if_pos hk, hload, reduceCtorEq] at h
      · refine ⟨rfl, err, rfl, ?_⟩
        simp only [HandleGenerateSignature, if_pos hk, hload]
    · simp only [requestToValidate, if_neg hk, reduceCtorEq] at h
  · left
    exact ⟨by simp, rfl⟩

/-- When there is no request to validate. -/
theorem requestToValidate_none_iff (keyFile : ReadFileResult)
    (decoded : SignatureRequest α × Option GoError) :
    requestToValidate keyFile decoded = none ↔
      decoded.2 ≠ none ∨
        (decoded.1.PrivateKey = [] ∧ (LoadDefaultPrivateKey keyFile).2 ≠ none) := by
  rcases decoded with ⟨r, _ | e⟩
  · by_cases hk : r.PrivateKey = []
    · rcases hload : LoadDefaultPrivateKey keyFile with ⟨k, _ | err⟩
      · simp [requestToValidate, hk, hload]
      · simp [requestToValidate, hk, hload]
    · simp [requestToValidate, hk]
  · simp [requestToValidate]

/-- The request to validate is the decoded one, with the default key when it
carries none. -/
theorem requestToValidate_some (keyFile : ReadFileResult)
    (decoded : SignatureRequest α × Option GoError) (req : SignatureRequest α)
    (h : requestToValidate keyFile decoded = some req) :
    decoded.2 = none ∧
      ((decoded.1.PrivateKey ≠ [] ∧ req = decoded.1) ∨
        (decoded.1.PrivateKey = [] ∧ (LoadDefaultPrivateKey keyFile).2 = none ∧
          req = { decoded.1 with PrivateKey := (LoadDefaultPrivateKey keyFile).1 })) := by
  rcases decoded with ⟨r, _ | e⟩
  · refine ⟨rfl, ?_⟩
    by_cases hk : r.PrivateKey = []
    · rcases hload : LoadDefaultPrivateKey keyFile with ⟨k, _ | err⟩
      · simp only [requestToValidate, if_pos hk, hload, Option.some.injEq] at h
        exact Or.inr ⟨hk, rfl, h.symm⟩
      · simp only [requestToValidate, if_pos hk, hload, reduceCtorEq] at h
    · simp only [requestToValidate, if_neg hk, Option.some.injEq] at h
      exact Or.inl ⟨hk, h.symm⟩
  · simp only [requestToValidate, reduceCtorEq] at h

/-- What `validateAndRoute` answers. -/
theorem validateAndRoute_cases (L : Lib α) (now : Time) (rand : RandReader)
    (req : SignatureRequest α) :
    (∃ e, req.Validate.2 = some e ∧ validateAndRoute L now rand req =
      respondWithError StatusBadRequest (.literal e.Message)) ∨
    (req.Validate.2 = none ∧
      ∃ out : Option SignatureResponse × Option GoError,
        routeBySignatureType L now rand req = some out ∧
        ((req.SignatureRequestType = SignatureTypeTransactionsRSA ∧
            out = GenerateSignatureForTransactions L now rand req) ∨
          (req.SignatureRequestType = SignatureTypeTransactionsHMAC ∧
            out = GenerateSignatureForTransactionsHMAC512 L now req) ∨
          (req.SignatureRequestType = SignatureTypeToken ∧
            out = GenerateSignatureForToken L now rand req)) ∧
        (out.2 = none → validateAndRoute L now rand req = respondWithJSON StatusOK out.1) ∧
        (∀ err, out.2 = some err → validateAndRoute L now rand req =
          respondWithError StatusInternalServerError (.ofError err))) := by
  obtain ⟨n1, n2, n3, d1, d2, d3, _⟩ := signatureType_facts
  have hfst := Validate_fst req
  cases hv : req.Validate.2 with
  | some e =>
    left
    refine ⟨e, rfl, ?_⟩
    unfold validateAndRoute
    have : req.Validate = (req.Validate.1, some e) := by rw [← hv]
    rw [this]
  | none =>
    right
    refine ⟨rfl, ?_⟩
    have hpair : req.Validate = (req, none) := Prod.ext hfst hv
    have hroute : ∃ out, routeBySignatureType L now rand req = some out ∧
        ((req.SignatureRequestType = SignatureTypeTransactionsRSA ∧
            out = GenerateSignatureForTransactions L now rand req) ∨
          (req.SignatureRequestType = SignatureTypeTransactionsHMAC ∧
            out = GenerateSignatureForTransactionsHMAC512 L now req) ∨
          (req.SignatureRequestType = SignatureTypeToken ∧
            out = GenerateSignatureForToken L now rand req)) := by
      unfold routeBySignatureType
      rcases Validate_ok_type req hv with h | h | h
      · exact ⟨_, by rw [if_pos h], Or.inl ⟨h, rfl⟩⟩
      · have h1 : req.SignatureRequestType ≠ SignatureTypeTransactionsRSA := by
          rw [h]; exact d1.symm
        exact ⟨_, by rw [if_neg h1, if_pos h], Or.inr (Or.inl ⟨h, rfl⟩)⟩
      · have h1 : req.SignatureRequestType ≠ SignatureTypeTransactionsRSA := by
          rw [h]; exact d2.symm
        have h2 : req.SignatureRequestType ≠ SignatureTypeTransactionsHMAC := by
          rw [h]; exact d3.symm
        exact ⟨_, by rw [if_neg h1, if_neg h2, if_pos h], Or.inr (Or.inr ⟨h, rfl⟩)⟩
    obtain ⟨out, hout, hwhich⟩ := hroute
    refine ⟨out, hout, hwhich, ?_, ?_⟩
    · intro ho
      unfold validateAndRoute
      rw [hpair]
      simp only
      have : out = (out.1, none) := by rw [← ho]
      rw [hout, this]
    · intro err ho
      unfold validateAndRoute
      rw [hpair]
      simp only
      have : out = (out.1, some err) := by rw [← ho]
      rw [hout, this]

end HandlerLemmas

/-! ### String-to-sign and signature of each scheme -/

section Claims

variable {α : Type}

set_option maxRecDepth 100000

/-- C1: on every request on which `GenerateSignatureForTransactions` succeeds,
`StringToSign` is `Method:URL:D:T` in that order, with `T` the resolved timestamp
(the supplied one when non-empty) and `D` the digest segment (empty for an absent
or zero-byte body, otherwise the lowercase hex SHA-256 of the compacted body,
whose compaction succeeded); `Signature` is the base64 encoding of the RSA
PKCS#1v1.5 signature of the SHA-256 digest of exactly `StringToSign` under the
key decoded from the request. -/
theorem transactions_rsa_string_to_sign (L : Lib α) (now : Time) (rand : RandReader)
    (req : SignatureRequest α) (resp : SignatureResponse)
    (h : GenerateSignatureForTransactions L now rand req = (some resp, none)) :
    resp.StringToSign = req.Method ++ str ":" ++ req.URL ++ str ":" ++
      digestSegment L req.Body ++ str ":" ++ resolvedTimestamp now req ∧
    (req.Timestamp ≠ [] → resolvedTimestamp now req = req.Timestamp) ∧
    (serialisedBody L req.Body ≠ [] → (jsonCompact (serialisedBody L req.Body)).2 = none) ∧
    ∃ key sig,
      GetPKCS8RSAPrivateKey L req.PrivateKey = (some key, none) ∧
      L.signPKCS1v15 rand (some key) (L.sha256Sum resp.StringToSign) = (sig, none) ∧
      resp.Signature = base64EncodeToString sig := by
  obtain ⟨key, sig, hcompact, hkey, hs, hresp⟩ := GenerateSignatureForTransactions_ok h
  refine ⟨by rw [hresp], ?_, hcompact, key, sig, hkey, hs, by rw [hresp]⟩
  intro hne
  simp [resolvedTimestamp, hne]

/-- The scenario of C1: `POST`, `/v1.0/debit`, body `{"amount":"1000"}`,
timestamp `2024-01-15T10:30:00.000+07:00`. -/
theorem transactions_rsa_string_to_sign_witness :
    GenerateSignatureForTransactions demoLib demoNow demoRand demoRequest =
      (some demoResponse, none) ∧
    demoResponse.StringToSign = str "POST" ++ str ":" ++ str "/v1.0/debit" ++ str ":" ++
      hexEncodeToString (demoLib.sha256Sum (str "\x7b\"amount\":\"1000\"\x7d")) ++ str ":" ++
      str "2024-01-15T10:30:00.000+07:00" :=
  ⟨by decide,
    (transactions_rsa_string_to_sign demoLib demoNow demoRand demoRequest demoResponse
      (by decide)).1.trans (by decide)⟩

/-- C2: on every request on which `GenerateSignatureForTransactionsHMAC512`
succeeds, `StringToSign` is `Method:URL:AccessToken:D:T`, and `Signature` is the
base64 encoding of the HMAC-SHA512 keyed by `SecretKey` over exactly
`StringToSign`. -/
theorem transactions_hmac_string_to_sign (L : Lib α) (now : Time)
    (req : SignatureRequest α) (resp : SignatureResponse)
    (h : GenerateSignatureForTransactionsHMAC512 L now req = (some resp, none)) :
    resp.StringToSign = req.Method ++ str ":" ++ req.URL ++ str ":" ++ req.AccessToken ++
      str ":" ++ digestSegment L req.Body ++ str ":" ++ resolvedTimestamp now req ∧
    (req.Timestamp ≠ [] → resolvedTimestamp now req = req.Timestamp) ∧
    (serialisedBody L req.Body ≠ [] → (jsonCompact (serialisedBody L req.Body)).2 = none) ∧
    resp.Signature = base64EncodeToString (L.hmacSum req.SecretKey resp.StringToSign) := by
  obtain ⟨hcompact, hresp⟩ := GenerateSignatureForTransactionsHMAC512_ok h
  refine ⟨by rw [hresp], ?_, hcompact, by rw [hresp]⟩
  intro hne
  simp [resolvedTimestamp, hne]

/-- The scenario of C2: access token `tok-123`, secret key `s3cr3t`, `POST`,
`/v1.0/debit`, body `{"amount":"1000"}`. -/
theorem transactions_hmac_string_to_sign_witness :
    GenerateSignatureForTransactionsHMAC512 demoLib demoNow demoRequest =
      (some demoHmacResponse, none) ∧
    demoHmacResponse.Signature =
      base64EncodeToString (demoLib.hmacSum (str "s3cr3t") demoHmacResponse.StringToSign) :=
  ⟨by decide,
    (transactions_hmac_string_to_sign demoLib demoNow demoRequest demoHmacResponse
      (by decide)).2.2.2⟩

/-- C3: on every request on which `GenerateSignatureForToken` succeeds,
`StringToSign` is `ClientID|T` with `T` the resolved timestamp, `Signature` is the
base64 RSA PKCS#1v1.5 SHA-256 signature of exactly that string, and the whole
outcome is the same for any request with the same `ClientID`, `Timestamp` and
`PrivateKey`, whatever its `Method`, `URL`, `Body`, `AccessToken`, `SecretKey`. -/
theorem token_string_to_sign (L : Lib α) (now : Time) (rand : RandReader)
    (req : SignatureRequest α) (resp : SignatureResponse)
    (h : GenerateSignatureForToken L now rand req = (some resp, none)) :
    resp.StringToSign = req.ClientID ++ str "|" ++ resolvedTimestamp now req ∧
    (req.Timestamp ≠ [] → resolvedTimestamp now req = req.Timestamp) ∧
    (∃ key sig,
      GetPKCS8RSAPrivateKey L req.PrivateKey = (some key, none) ∧
      L.signPKCS1v15 rand (some key) (L.sha256Sum resp.StringToSign) = (sig, none) ∧
      resp.Signature = base64EncodeToString sig) ∧
    ∀ req2 : SignatureRequest α, req2.ClientID = req.ClientID →
      req2.Timestamp = req.Timestamp → req2.PrivateKey = req.PrivateKey →
      GenerateSignatureForToken L now rand req2 = (some resp, none) := by
  obtain ⟨key, sig, hkey, hs, hresp⟩ := GenerateSignatureForToken_ok h
  refine ⟨by rw [hresp], ?_, ⟨key, sig, hkey, hs, by rw [hresp]⟩, ?_⟩
  · intro hne
    simp [resolvedTimestamp, hne]
  · intro req2 h1 h2 h3
    rw [← h]
    unfold GenerateSignatureForToken
    simp only [resolveTimestamp_Timestamp, (resolveTimestamp_fields now req).2.2.1,
      (resolveTimestamp_fields now req).2.2.2.1, (resolveTimestamp_fields now req2).2.2.1,
      (resolveTimestamp_fields now req2).2.2.2.1, h1, h3, resolvedTimestamp, h2]

/-- The scenario of C3: client `client-42` at `2024-01-15T10:30:00.000+07:00`. -/
theorem token_string_to_sign_witness :
    GenerateSignatureForToken demoLib demoNow demoRand demoRequest =
      (some demoTokenResponse, none) ∧
    demoTokenResponse.StringToSign = str "client-42|2024-01-15T10:30:00.000+07:00" :=
  ⟨by decide,
    (token_string_to_sign demoLib demoNow demoRand demoRequest demoTokenResponse
      (by decide)).1.trans (by decide)⟩

/-! ### Headers and the resolved timestamp -/

/-- C4: every successful result of any of the three generators carries exactly
the two header keys `X-TIMESTAMP` and `X-SIGNATURE`, mapped to the returned
`Timestamp` and `Signature`. -/
theorem headers_mirror_timestamp_and_signature (L : Lib α) (now : Time) (rand : RandReader)
    (req : SignatureRequest α) (resp : SignatureResponse)
    (h : GenerateSignatureForTransactions L now rand req = (some resp, none) ∨
      GenerateSignatureForTransactionsHMAC512 L now req = (some resp, none) ∨
      GenerateSignatureForToken L now rand req = (some resp, none)) :
    resp.Headers.map Prod.fst = [str "X-TIMESTAMP", str "X-SIGNATURE"] ∧
    resp.Headers.lookup (str "X-TIMESTAMP") = some resp.Timestamp ∧
    resp.Headers.lookup (str "X-SIGNATURE") = some resp.Signature ∧
    ∀ k, k ≠ str "X-TIMESTAMP" → k ≠ str "X-SIGNATURE" → resp.Headers.lookup k = none := by
  have hne : (str "X-SIGNATURE" == str "X-TIMESTAMP") = false := by decide
  have hshape : resp.Headers =
      [(str "X-TIMESTAMP", resp.Timestamp), (str "X-SIGNATURE", resp.Signature)] := by
    rcases h with h | h | h
    · obtain ⟨_, _, _, _, _, hresp⟩ := GenerateSignatureForTransactions_ok h
      rw [hresp]
    · obtain ⟨_, hresp⟩ := GenerateSignatureForTransactionsHMAC512_ok h
      rw [hresp]
    · obtain ⟨_, _, _, _, hresp⟩ := GenerateSignatureForToken_ok h
      rw [hresp]
  rw [hshape]
  refine ⟨rfl, ?_, ?_, ?_⟩
  · simp [List.lookup]
  · simp [List.lookup, hne]
  · intro k h1 h2
    have e1 : (k == str "X-TIMESTAMP") = false := by simpa using h1
    have e2 : (k == str "X-SIGNATURE") = false := by simpa using h2
    simp [List.lookup, e1, e2]

/-- The headers of the three scenario responses. -/
theorem headers_mirror_timestamp_and_signature_witness :
    demoHmacResponse.Headers.lookup (str "X-TIMESTAMP") =
      some (str "2024-01-15T10:30:00.000+07:00") ∧
    demoHmacResponse.Headers.lookup (str "X-SIGNATURE") = some demoHmacSignature :=
  ⟨(headers_mirror_timestamp_and_signature demoLib demoNow demoRand demoRequest
      demoHmacResponse (Or.inr (Or.inl (by decide)))).2.1,
    (headers_mirror_timestamp_and_signature demoLib demoNow demoRand demoRequest
      demoHmacResponse (Or.inr (Or.inl (by decide)))).2.2.1⟩

/-- C5: the resolved timestamp is used consistently. For every successful result
of any of the three generators the returned `Timestamp` is the request's own
whenever that is non-empty (and then the whole outcome is the same at every clock
reading), it is the generated value otherwise, and `StringToSign` ends with the
scheme's delimiter (`:` for the transaction schemes, `|` for the token scheme)
followed by exactly the returned `Timestamp`. -/
theorem resolved_timestamp_consistent (L : Lib α) (now : Time) (rand : RandReader)
    (req : SignatureRequest α) (resp : SignatureResponse) (delim : Bytes)
    (h : (GenerateSignatureForTransactions L now rand req = (some resp, none) ∧
        delim = str ":") ∨
      (GenerateSignatureForTransactionsHMAC512 L now req = (some resp, none) ∧
        delim = str ":") ∨
      (GenerateSignatureForToken L now rand req = (some resp, none) ∧ delim = str "|")) :
    (req.Timestamp ≠ [] → resp.Timestamp = req.Timestamp) ∧
    (req.Timestamp ≠ [] → ∀ now2 : Time,
      GenerateSignatureForTransactions L now2 rand req =
        GenerateSignatureForTransactions L now rand req ∧
      GenerateSignatureForTransactionsHMAC512 L now2 req =
        GenerateSignatureForTransactionsHMAC512 L now req ∧
      GenerateSignatureForToken L now2 rand req = GenerateSignatureForToken L now rand req) ∧
    (req.Timestamp = [] → resp.Timestamp = GenerateCurrentTimestamp now) ∧
    ∃ front, resp.StringToSign = front ++ delim ++ resp.Timestamp := by
  have hts : resp.Timestamp = resolvedTimestamp now req ∧
      ∃ front, resp.StringToSign = front ++ delim ++ resp.Timestamp := by
    rcases h with ⟨h, hd⟩ | ⟨h, hd⟩ | ⟨h, hd⟩
    · obtain ⟨_, _, _, _, _, hresp⟩ := GenerateSignatureForTransactions_ok h
      rw [hresp, hd]
      exact ⟨rfl, _, rfl⟩
    · obtain ⟨_, hresp⟩ := GenerateSignatureForTransactionsHMAC512_ok h
      rw [hresp, hd]
      exact ⟨rfl, _, rfl⟩
    · obtain ⟨_, _, _, _, hresp⟩ := GenerateSignatureForToken_ok h
      rw [hresp, hd]
      exact ⟨rfl, _, rfl⟩
  refine ⟨?_, ?_, ?_, hts.2⟩
  · intro hne
    rw [hts.1]; simp [resolvedTimestamp, hne]
  · intro hne now2
    have hr : ∀ t : Time, resolveTimestamp t req = req := by
      intro t; simp [resolveTimestamp, hne]
    simp only [GenerateSignatureForTransactions, GenerateSignatureForTransactionsHMAC512,
      GenerateSignatureForToken, hr, and_self]
  · intro he
    rw [hts.1]; simp [resolvedTimestamp, he]

/-- A token request without a timestamp, signed at the clock reading `demoNow`:
the generated value is returned and closes the string-to-sign after `|`. -/
theorem resolved_timestamp_consistent_witness :
    formatISOMillis demoNow = str "2024-01-15T10:30:00.000+07:00" ∧
    ∃ front, demoTokenResponse.StringToSign =
      front ++ str "|" ++ str "2024-01-15T10:30:00.000+07:00" :=
  ⟨by decide,
    (resolved_timestamp_consistent demoLib demoNow demoRand
      { demoRequest with Timestamp := [] } demoTokenResponse (str "|")
      (Or.inr (Or.inr ⟨by decide, rfl⟩))).2.2.2⟩

/-! ### Invariance of the body digest -/

/-- The empty text is not a JSON text. -/
theorem jsonCompact_nil : jsonCompact [] =
    ([], some (.syntaxError none "unexpected end of JSON input")) := by decide

/-- On a JSON text with bytes, `encodeBodyBytes` is the hex digest of the text
without its insignificant whitespace. -/
theorem encodeBodyBytes_valid (L : Lib α) (b : Bytes) (hb : (jsonCompact b).2 = none) :
    encodeBodyBytes L b =
      (hexEncodeToString (L.sha256Sum (stripWhitespace .outside b)), none) := by
  have hne : b ≠ [] := by
    intro h0
    rw [h0, jsonCompact_nil] at hb
    simp at hb
  have hpair : jsonCompact b = ((jsonCompact b).1, none) := by
    rw [← hb]
  have hstrip := jsonCompact_eq_strip hpair
  unfold encodeBodyBytes
  rw [if_pos (List.length_pos.2 hne), hpair, hstrip]
  rfl

theorem resolveTimestamp_Method (now : Time) (req : SignatureRequest α) :
    (resolveTimestamp now req).Method = req.Method := (resolveTimestamp_fields now req).1

theorem resolveTimestamp_URL (now : Time) (req : SignatureRequest α) :
    (resolveTimestamp now req).URL = req.URL := (resolveTimestamp_fields now req).2.1

theorem resolveTimestamp_ClientID (now : Time) (req : SignatureRequest α) :
    (resolveTimestamp now req).ClientID = req.ClientID := (resolveTimestamp_fields now req).2.2.1

theorem resolveTimestamp_PrivateKey (now : Time) (req : SignatureRequest α) :
    (resolveTimestamp now req).PrivateKey = req.PrivateKey :=
  (resolveTimestamp_fields now req).2.2.2.1

theorem resolveTimestamp_AccessToken (now : Time) (req : SignatureRequest α) :
    (resolveTimestamp now req).AccessToken = req.AccessToken :=
  (resolveTimestamp_fields now req).2.2.2.2.1

theorem resolveTimestamp_SecretKey (now : Time) (req : SignatureRequest α) :
    (resolveTimestamp now req).SecretKey = req.SecretKey :=
  (resolveTimestamp_fields now req).2.2.2.2.2

/-- The transaction generators read the body only through `encodeRequestBody`. -/
theorem generators_congr_body (L : Lib α) (now : Time) (rand : RandReader)
    (req : SignatureRequest α) (body1 body2 : BodyValue α)
    (h : encodeRequestBody L body1 = encodeRequestBody L body2) :
    GenerateSignatureForTransactions L now rand { req with Body := body1 } =
      GenerateSignatureForTransactions L now rand { req with Body := body2 } ∧
    GenerateSignatureForTransactionsHMAC512 L now { req with Body := body1 } =
      GenerateSignatureForTransactionsHMAC512 L now { req with Body := body2 } := by
  constructor
  · simp only [GenerateSignatureForTransactions, h, resolveTimestamp_Method,
      resolveTimestamp_URL, resolveTimestamp_PrivateKey, resolveTimestamp_Timestamp,
      resolvedTimestamp]
  · simp only [GenerateSignatureForTransactionsHMAC512, h, resolveTimestamp_Method,
      resolveTimestamp_URL, resolveTimestamp_AccessToken, resolveTimestamp_SecretKey,
      resolveTimestamp_Timestamp, resolvedTimestamp]

/-- C6: body-whitespace invariance. Two raw-text bodies that are JSON texts
(accepted by `json.Compact`) and are equal once the whitespace outside string
literals is removed give the same digest segment, and with it the same outcome
(so the same `StringToSign`) of both transaction generators on requests that
are otherwise identical. -/
theorem body_whitespace_invariance (L : Lib α) (now : Time) (rand : RandReader)
    (req : SignatureRequest α) (b1 b2 : Bytes)
    (h1 : (jsonCompact b1).2 = none) (h2 : (jsonCompact b2).2 = none)
    (hws : stripWhitespace .outside b1 = stripWhitespace .outside b2) :
    encodeRequestBody L (.string b1) = encodeRequestBody L (.string b2) ∧
    digestSegment L (.string b1) = digestSegment L (.string b2) ∧
    GenerateSignatureForTransactions L now rand { req with Body := .string b1 } =
      GenerateSignatureForTransactions L now rand { req with Body := .string b2 } ∧
    GenerateSignatureForTransactionsHMAC512 L now { req with Body := .string b1 } =
      GenerateSignatureForTransactionsHMAC512 L now { req with Body := .string b2 } := by
  have henc : encodeRequestBody L (.string b1) = encodeRequestBody L (.string b2) := by
    simp only [encodeRequestBody]
    rw [encodeBodyBytes_valid L b1 h1, encodeBodyBytes_valid L b2 h2, hws]
  have hD : digestSegment L (.string b1) = digestSegment L (.string b2) := by
    have e1 : encodeRequestBody L (.string b1) = _ := encodeBodyBytes_valid L b1 h1
    have e2 : encodeRequestBody L (.string b2) = _ := encodeBodyBytes_valid L b2 h2
    rw [← (encodeRequestBody_ok e1).1, ← (encodeRequestBody_ok e2).1, hws]
  exact ⟨henc, hD, generators_congr_body L now rand req _ _ henc⟩

/-- The bodies `{"a":1,"b":2}` and `{ "a": 1,  "b": 2 }` of the specification. -/
theorem body_whitespace_invariance_witness :
    stripWhitespace .outside (str "\x7b \"a\": 1,  \"b\": 2 \x7d") =
      str "\x7b\"a\":1,\"b\":2\x7d" ∧
    encodeRequestBody demoLib (.string (str "\x7b\"a\":1,\"b\":2\x7d")) =
      encodeRequestBody demoLib (.string (str "\x7b \"a\": 1,  \"b\": 2 \x7d")) :=
  ⟨by decide,
    (body_whitespace_invariance demoLib demoNow demoRand demoRequest
      (str "\x7b\"a\":1,\"b\":2\x7d") (str "\x7b \"a\": 1,  \"b\": 2 \x7d")
      (by decide) (by decide) (by decide)).1⟩

/-- C7: empty-body invariance. For both transaction schemes a request without a
body and the otherwise identical request whose body is the empty raw text have
the same outcome (both succeed or both fail, with the same response), and on
success the digest segment of `StringToSign` is empty: the two `:` around it are
adjacent. -/
theorem empty_body_invariance (L : Lib α) (now : Time) (rand : RandReader)
    (req : SignatureRequest α) :
    GenerateSignatureForTransactions L now rand { req with Body := .nil } =
      GenerateSignatureForTransactions L now rand { req with Body := .string [] } ∧
    GenerateSignatureForTransactionsHMAC512 L now { req with Body := .nil } =
      GenerateSignatureForTransactionsHMAC512 L now { req with Body := .string [] } ∧
    (∀ resp, GenerateSignatureForTransactions L now rand { req with Body := .string [] } =
        (some resp, none) →
      resp.StringToSign = req.Method ++ str ":" ++ req.URL ++ str ":" ++ str ":" ++
        resolvedTimestamp now req) ∧
    (∀ resp, GenerateSignatureForTransactionsHMAC512 L now { req with Body := .string [] } =
        (some resp, none) →
      resp.StringToSign = req.Method ++ str ":" ++ req.URL ++ str ":" ++ req.AccessToken ++
        str ":" ++ str ":" ++ resolvedTimestamp now req) := by
  have henc : encodeRequestBody L (.nil : BodyValue α) = encodeRequestBody L (.string []) := rfl
  refine ⟨(generators_congr_body L now rand req _ _ henc).1,
    (generators_congr_body L now rand req _ _ henc).2, ?_, ?_⟩
  · intro resp h
    obtain ⟨_, _, _, _, _, hresp⟩ := GenerateSignatureForTransactions_ok h
    rw [hresp]
    simp [digestSegment, serialisedBody, resolvedTimestamp]
  · intro resp h
    obtain ⟨_, hresp⟩ := GenerateSignatureForTransactionsHMAC512_ok h
    rw [hresp]
    simp [digestSegment, serialisedBody, resolvedTimestamp]

/-- The scenario request without a body and with the empty raw text. -/
theorem empty_body_invariance_witness :
    (GenerateSignatureForTransactionsHMAC512 demoLib demoNow
      { demoRequest with Body := .string [] }).1.map (fun r => r.StringToSign) =
      some (str "POST:/v1.0/debit:tok-123::2024-01-15T10:30:00.000+07:00") ∧
    GenerateSignatureForTransactionsHMAC512 demoLib demoNow { demoRequest with Body := .nil } =
      GenerateSignatureForTransactionsHMAC512 demoLib demoNow
        { demoRequest with Body := .string [] } :=
  ⟨by decide, (empty_body_invariance demoLib demoNow demoRand demoRequest).2.1⟩

/-! ### Bodies of whitespace only -/

/-- On whitespace the fresh scanner stays where it is and copies nothing. -/
theorem compactLoop_whitespace (ws : Bytes) (hws : ∀ c ∈ ws, isSpace c = true) :
    ∀ dst : Bytes, compactLoop newScanner dst ws = (newScanner, dst) := by
  induction ws with
  | nil => intro dst; rfl
  | cons c rest ih =>
    intro dst
    have hc : isSpace c = true := hws c (List.mem_cons_self c rest)
    have hrun : newScanner.run c = (newScanner, scanSkipSpace) := by
      simp [Scanner.run, newScanner, stateBeginValue, hc]
    simp only [compactLoop, hrun]
    rw [if_pos (le_refl _), if_neg (by decide)]
    exact ih (fun x hx => hws x (List.mem_cons_of_mem c hx)) dst

/-- A text of whitespace only (the empty text included) is rejected by
`json.Compact`: the input ends before any value. -/
theorem jsonCompact_whitespace (ws : Bytes) (hws : ∀ c ∈ ws, isSpace c = true) :
    jsonCompact ws = ([], some (.syntaxError none "unexpected end of JSON input")) := by
  unfold jsonCompact
  rw [compactLoop_whitespace ws hws []]
  rfl

/-- A text that is empty after removing its insignificant whitespace consists of
whitespace only. -/
theorem stripWhitespace_outside_nil (b : Bytes) (h : stripWhitespace .outside b = []) :
    ∀ c ∈ b, isSpace c = true := by
  induction b with
  | nil => intro c hc; simp at hc
  | cons a rest ih =>
    simp only [stripWhitespace] at h
    split at h
    · rename_i hins
      have ha : isSpace a = true := by simpa [insignificant] using hins
      have hq : a ≠ 34 := by
        rcases (isSpace_iff a).1 ha with h0 | h0 | h0 | h0 <;> omega
      have hnext : lexNext .outside a = .outside := by simp [lexNext, hq]
      rw [hnext] at h
      intro c hc
      rcases List.mem_cons.1 hc with hc | hc
      · rw [hc]; exact ha
      · exact ih h c hc
    · simp at h

/-- A successful `json.Compact` never writes zero bytes. -/
theorem jsonCompact_ne_nil {b m : Bytes} (h : jsonCompact b = (m, none)) : m ≠ [] := by
  intro hm
  have hstrip := jsonCompact_eq_strip h
  rw [hm] at hstrip
  have := jsonCompact_whitespace b (stripWhitespace_outside_nil b hstrip.symm)
  rw [this] at h
  simp at h

/-- C8, as the code has it: the length test of the body digest rule is made on
the body bytes before compaction. Zero body bytes give the empty digest segment
without running `json.Compact`, and a `json.Compact` that succeeds never yields
zero bytes; a raw-text body of insignificant whitespace only is not empty, so
`json.Compact` runs and rejects it ("unexpected end of JSON input") and both
transaction generators return that error and no response. -/
theorem whitespace_only_body_rejected (L : Lib α) (now : Time) (rand : RandReader)
    (req : SignatureRequest α) (ws : Bytes) (hne : ws ≠ [])
    (hws : ∀ c ∈ ws, isSpace c = true) :
    encodeBodyBytes L [] = ([], none) ∧
    (∀ b m, jsonCompact b = (m, none) → m ≠ []) ∧
    jsonCompact ws = ([], some (.syntaxError none "unexpected end of JSON input")) ∧
    GenerateSignatureForTransactions L now rand { req with Body := .string ws } =
      (none, some (.syntaxError none "unexpected end of JSON input")) ∧
    GenerateSignatureForTransactionsHMAC512 L now { req with Body := .string ws } =
      (none, some (.syntaxError none "unexpected end of JSON input")) := by
  have hc := jsonCompact_whitespace ws hws
  have henc : encodeRequestBody L (.string ws) =
      ([], some (.syntaxError none "unexpected end of JSON input")) := by
    simp only [encodeRequestBody, encodeBodyBytes]
    rw [if_pos (List.length_pos.2 hne), hc]
  refine ⟨rfl, fun b m h => jsonCompact_ne_nil h, hc, ?_, ?_⟩
  · simp only [GenerateSignatureForTransactions, henc]
  · simp only [GenerateSignatureForTransactionsHMAC512, henc]

/-- The one-character body `" "`. -/
theorem whitespace_only_body_rejected_witness :
    jsonCompact (str " ") = ([], some (.syntaxError none "unexpected end of JSON input")) ∧
    GenerateSignatureForTransactions demoLib demoNow demoRand
      { demoRequest with Body := .string (str " ") } =
      (none, some (.syntaxError none "unexpected end of JSON input")) :=
  ⟨(whitespace_only_body_rejected demoLib demoNow demoRand demoRequest (str " ")
      (by decide) (by decide)).2.2.1,
    (whitespace_only_body_rejected demoLib demoNow demoRand demoRequest (str " ")
      (by decide) (by decide)).2.2.2.1⟩

/-- C8 as stated fails: with the one-character body `" "` both transaction
generators return an error and no response, while with an absent body the same
request is signed. -/
theorem whitespace_only_body_counterexample :
    GenerateSignatureForTransactions demoLib demoNow demoRand
      { demoRequest with Body := .string (str " ") } =
      (none, some (.syntaxError none "unexpected end of JSON input")) ∧
    GenerateSignatureForTransactionsHMAC512 demoLib demoNow
      { demoRequest with Body := .string (str " ") } =
      (none, some (.syntaxError none "unexpected end of JSON input")) ∧
    (GenerateSignatureForTransactions demoLib demoNow demoRand
      { demoRequest with Body := .nil }).1.map (fun r => r.StringToSign) =
      some (str "POST:/v1.0/debit::2024-01-15T10:30:00.000+07:00") ∧
    (GenerateSignatureForTransactionsHMAC512 demoLib demoNow
      { demoRequest with Body := .nil }).1.map (fun r => r.StringToSign) =
      some (str "POST:/v1.0/debit:tok-123::2024-01-15T10:30:00.000+07:00") := by
  decide

/-! ### Determinism -/

/-- The RSA signing step does not depend on the random source. -/
theorem GenerateBase64EncodedSHA256withRSA_random (L : Lib α) (r1 r2 : RandReader)
    (message : Bytes) (key : Option RSAPrivateKey) :
    GenerateBase64EncodedSHA256withRSA L r1 message key =
      GenerateBase64EncodedSHA256withRSA L r2 message key := by
  unfold GenerateBase64EncodedSHA256withRSA
  simp only [L.signPKCS1v15_random r1 r2]

/-- C9: determinism. On a request with an explicit non-empty `Timestamp`, each
generator gives the same outcome (the same error, or the same response with
byte-identical `StringToSign` and `Signature`) at any two clock readings and,
for the RSA schemes, with any two random sources. -/
theorem determinism_with_explicit_timestamp (L : Lib α) (req : SignatureRequest α)
    (hts : req.Timestamp ≠ []) (now1 now2 : Time) (rand1 rand2 : RandReader) :
    GenerateSignatureForTransactions L now1 rand1 req =
      GenerateSignatureForTransactions L now2 rand2 req ∧
    GenerateSignatureForTransactionsHMAC512 L now1 req =
      GenerateSignatureForTransactionsHMAC512 L now2 req ∧
    GenerateSignatureForToken L now1 rand1 req = GenerateSignatureForToken L now2 rand2 req := by
  have hr : ∀ t : Time, resolveTimestamp t req = req := by
    intro t; simp [resolveTimestamp, hts]
  refine ⟨?_, ?_, ?_⟩
  · simp only [GenerateSignatureForTransactions, hr,
      GenerateBase64EncodedSHA256withRSA_random L rand1 rand2]
  · simp only [GenerateSignatureForTransactionsHMAC512, hr]
  · simp only [GenerateSignatureForToken, hr,
      GenerateBase64EncodedSHA256withRSA_random L rand1 rand2]

/-- The scenario request signed at two clock readings with two random streams. -/
theorem determinism_with_explicit_timestamp_witness :
    GenerateSignatureForTransactions demoLib demoNow demoRand demoRequest =
      GenerateSignatureForTransactions demoLib { demoNow with year := 1999 } (fun _ => 0)
        demoRequest ∧
    GenerateSignatureForToken demoLib demoNow demoRand demoRequest =
      GenerateSignatureForToken demoLib { demoNow with year := 1999 } (fun _ => 0)
        demoRequest :=
  ⟨(determinism_with_explicit_timestamp demoLib demoRequest (by decide) demoNow
      { demoNow with year := 1999 } demoRand (fun _ => 0)).1,
    (determinism_with_explicit_timestamp demoLib demoRequest (by decide) demoNow
      { demoNow with year := 1999 } demoRand (fun _ => 0)).2.2⟩

/-! ### The key decoder -/

/-- C10: `GetPKCS8RSAPrivateKey` returns an error and a nil key in exactly three
cases, met in this order: no PEM block is found; the first block's bytes do not
parse as a PKCS8 private key (the parser's error is returned); the parsed key is
not an RSA key. In the one remaining case it returns the RSA key parsed from the
first block and a nil error. It never returns both a key and an error. -/
theorem GetPKCS8RSAPrivateKey_cases (L : Lib α) (pKey : Bytes) :
    ((L.pemDecode pKey = none ∧
        GetPKCS8RSAPrivateKey L pKey = (none, some (.errorString "ssh: no key found"))) ∨
      (∃ block err, L.pemDecode pKey = some block ∧
        (L.parsePKCS8PrivateKey block.bytes).2 = some err ∧
        GetPKCS8RSAPrivateKey L pKey = (none, some err)) ∨
      (∃ block, L.pemDecode pKey = some block ∧
        (L.parsePKCS8PrivateKey block.bytes).2 = none ∧
        (∀ k, (L.parsePKCS8PrivateKey block.bytes).1 ≠ some (.rsa k)) ∧
        GetPKCS8RSAPrivateKey L pKey =
          (none, some (.errorString "cannot type assert as rsa private key pointer"))) ∨
      (∃ block k, L.pemDecode pKey = some block ∧
        L.parsePKCS8PrivateKey block.bytes = (some (.rsa k), none) ∧
        GetPKCS8RSAPrivateKey L pKey = (some k, none))) ∧
    ¬ ((GetPKCS8RSAPrivateKey L pKey).1.isSome = true ∧
      (GetPKCS8RSAPrivateKey L pKey).2.isSome = true) := by
  unfold GetPKCS8RSAPrivateKey
  cases hpem : L.pemDecode pKey with
  | none => simp
  | some block =>
    rcases hparse : L.parsePKCS8PrivateKey block.bytes with ⟨key, err⟩
    cases err with
    | some e => simp [hparse]
    | none =>
      cases key with
      | none => simp [hparse]
      | some k =>
        cases k <;> simp [hparse]

/-! ### No partial result -/

/-- `GenerateSignatureForTransactions` returns a response or an error, never
both and never neither. -/
theorem GenerateSignatureForTransactions_nil_iff (L : Lib α) (now : Time) (rand : RandReader)
    (req : SignatureRequest α) :
    (GenerateSignatureForTransactions L now rand req).1 = none ↔
      (GenerateSignatureForTransactions L now rand req).2 ≠ none := by
  unfold GenerateSignatureForTransactions
  split
  · simp
  · simp only
    split
    · simp
    · split <;> simp

/-- `GenerateSignatureForTransactionsHMAC512` returns a response or an error,
never both and never neither. -/
theorem GenerateSignatureForTransactionsHMAC512_nil_iff (L : Lib α) (now : Time)
    (req : SignatureRequest α) :
    (GenerateSignatureForTransactionsHMAC512 L now req).1 = none ↔
      (GenerateSignatureForTransactionsHMAC512 L now req).2 ≠ none := by
  unfold GenerateSignatureForTransactionsHMAC512
  split
  · simp
  · simp only
    split <;> simp

/-- `GenerateSignatureForToken` returns a response or an error, never both and
never neither. -/
theorem GenerateSignatureForToken_nil_iff (L : Lib α) (now : Time) (rand : RandReader)
    (req : SignatureRequest α) :
    (GenerateSignatureForToken L now rand req).1 = none ↔
      (GenerateSignatureForToken L now rand req).2 ≠ none := by
  unfold GenerateSignatureForToken
  simp only
  split
  · simp
  · split <;> simp

/-- The key decoder uses the PEM and PKCS8 readers of the library only. -/
theorem GetPKCS8RSAPrivateKey_congr (L L2 : Lib α) (pKey : Bytes)
    (h1 : L2.pemDecode = L.pemDecode)
    (h2 : L2.parsePKCS8PrivateKey = L.parsePKCS8PrivateKey) :
    GetPKCS8RSAPrivateKey L2 pKey = GetPKCS8RSAPrivateKey L pKey := by
  unfold GetPKCS8RSAPrivateKey
  rw [h1, h2]

/-- The body block uses the JSON serialiser and the digest of the library only. -/
theorem encodeRequestBody_congr (L L2 : Lib α) (body : BodyValue α)
    (h1 : L2.jsonMarshal = L.jsonMarshal) (h2 : L2.sha256Sum = L.sha256Sum) :
    encodeRequestBody L2 body = encodeRequestBody L body := by
  unfold encodeRequestBody encodeBodyBytes GenerateHexEncodedSHA256
  rw [h1, h2]

/-- A key that does not decode ends both RSA generators, once the body block has
passed, with the decoder's error. -/
theorem key_error_returned (L : Lib α) (now : Time) (rand : RandReader)
    (req : SignatureRequest α) (err : GoError)
    (hkey : (GetPKCS8RSAPrivateKey L req.PrivateKey).2 = some err) :
    GenerateSignatureForToken L now rand req = (none, some err) ∧
    ((encodeRequestBody L req.Body).2 = none →
      GenerateSignatureForTransactions L now rand req = (none, some err)) := by
  have hpair : GetPKCS8RSAPrivateKey L req.PrivateKey =
      ((GetPKCS8RSAPrivateKey L req.PrivateKey).1, some err) := by
    rw [← hkey]
  constructor
  · unfold GenerateSignatureForToken
    simp only [resolveTimestamp_PrivateKey]
    rw [hpair]
  · intro hbody
    have hb : encodeRequestBody L req.Body = ((encodeRequestBody L req.Body).1, none) := by
      rw [← hbody]
    unfold GenerateSignatureForTransactions
    rw [hb]
    simp only [resolveTimestamp_PrivateKey]
    rw [hpair]

/-- C11, as the code has it: each generator returns a nil response exactly when
it returns an error. When `GetPKCS8RSAPrivateKey` fails on the request's
`PrivateKey`, `GenerateSignatureForToken` returns that same error and no
response, and so does `GenerateSignatureForTransactions` provided the body
block before it has passed; in both cases whatever the library's signer is (it
is not invoked). When the body block fails, `GenerateSignatureForTransactions`
returns the body's error instead, before the key is decoded. -/
theorem no_partial_result (L : Lib α) (now : Time) (rand : RandReader)
    (req : SignatureRequest α) :
    ((GenerateSignatureForTransactions L now rand req).1 = none ↔
      (GenerateSignatureForTransactions L now rand req).2 ≠ none) ∧
    ((GenerateSignatureForTransactionsHMAC512 L now req).1 = none ↔
      (GenerateSignatureForTransactionsHMAC512 L now req).2 ≠ none) ∧
    ((GenerateSignatureForToken L now rand req).1 = none ↔
      (GenerateSignatureForToken L now rand req).2 ≠ none) ∧
    (∀ err, (GetPKCS8RSAPrivateKey L req.PrivateKey).2 = some err →
      ∀ L2 : Lib α, L2.pemDecode = L.pemDecode →
        L2.parsePKCS8PrivateKey = L.parsePKCS8PrivateKey →
        GenerateSignatureForToken L2 now rand req = (none, some err)) ∧
    (∀ err, (GetPKCS8RSAPrivateKey L req.PrivateKey).2 = some err →
      (encodeRequestBody L req.Body).2 = none →
      ∀ L2 : Lib α, L2.pemDecode = L.pemDecode →
        L2.parsePKCS8PrivateKey = L.parsePKCS8PrivateKey →
        L2.jsonMarshal = L.jsonMarshal → L2.sha256Sum = L.sha256Sum →
        GenerateSignatureForTransactions L2 now rand req = (none, some err)) ∧
    (∀ err, (encodeRequestBody L req.Body).2 = some err →
      GenerateSignatureForTransactions L now rand req = (none, some err)) := by
  refine ⟨GenerateSignatureForTransactions_nil_iff L now rand req,
    GenerateSignatureForTransactionsHMAC512_nil_iff L now req,
    GenerateSignatureForToken_nil_iff L now rand req, ?_, ?_, ?_⟩
  · intro err hkey L2 h1 h2
    have hkey2 : (GetPKCS8RSAPrivateKey L2 req.PrivateKey).2 = some err := by
      rw [GetPKCS8RSAPrivateKey_congr L L2 _ h1 h2]; exact hkey
    exact (key_error_returned L2 now rand req err hkey2).1
  · intro err hkey hbody L2 h1 h2 h3 h4
    have hkey2 : (GetPKCS8RSAPrivateKey L2 req.PrivateKey).2 = some err := by
      rw [GetPKCS8RSAPrivateKey_congr L L2 _ h1 h2]; exact hkey
    have hbody2 : (encodeRequestBody L2 req.Body).2 = none := by
      rw [encodeRequestBody_congr L L2 _ h3 h4]; exact hbody
    exact (key_error_returned L2 now rand req err hkey2).2 hbody2
  · intro err hbody
    have hb : encodeRequestBody L req.Body = ((encodeRequestBody L req.Body).1, some err) := by
      rw [← hbody]
    unfold GenerateSignatureForTransactions
    rw [hb]

/-- The scenario request with a key text that holds no PEM block. -/
theorem no_partial_result_witness :
    GetPKCS8RSAPrivateKey demoLib (str "x") =
      (none, some (.errorString "ssh: no key found")) ∧
    GenerateSignatureForTransactions demoLib demoNow demoRand
      { demoRequest with PrivateKey := str "x" } =
      (none, some (.errorString "ssh: no key found")) :=
  ⟨by decide,
    (no_partial_result demoLib demoNow demoRand
      { demoRequest with PrivateKey := str "x" }).2.2.2.2.1
      (.errorString "ssh: no key found") (by decide) (by decide) demoLib rfl rfl rfl rfl⟩

/-- C11 as stated fails: with the body `hello` and a key text without a PEM
block, `GetPKCS8RSAPrivateKey` fails with "ssh: no key found", yet
`GenerateSignatureForTransactions` returns the syntax error of the body. -/
theorem no_partial_result_counterexample :
    GetPKCS8RSAPrivateKey demoLib (str "x") =
      (none, some (.errorString "ssh: no key found")) ∧
    GenerateSignatureForTransactions demoLib demoNow demoRand
      { demoRequest with Body := .string (str "hello"), PrivateKey := str "x" } =
      (none, some (.syntaxError (some 104) "looking for beginning of value")) := by
  decide

/-! ### The hex digest -/

theorem length_hexEncodeToString (b : Bytes) :
    (hexEncodeToString b).length = 2 * b.length := by
  induction b with
  | nil => rfl
  | cons v rest ih => simp [hexEncodeToString, ih]; omega

theorem hextable_range (n : Nat) :
    (48 ≤ hextable n ∧ hextable n ≤ 57) ∨ (97 ≤ hextable n ∧ hextable n ≤ 102) := by
  unfold hextable
  split <;> omega

theorem mem_hexEncodeToString (b : Bytes) :
    ∀ c ∈ hexEncodeToString b, (48 ≤ c ∧ c ≤ 57) ∨ (97 ≤ c ∧ c ≤ 102) := by
  induction b with
  | nil => intro c hc; simp [hexEncodeToString] at hc
  | cons v rest ih =>
    intro c hc
    simp only [hexEncodeToString, List.mem_cons] at hc
    rcases hc with hc | hc | hc
    · rw [hc]; exact hextable_range _
    · rw [hc]; exact hextable_range _
    · exact ih c hc

/-- C12: `GenerateHexEncodedSHA256` is a total function whose result, for every
input, has exactly 64 characters, each one of `0-9` or `a-f`; `strings.ToLower`
leaves it unchanged, so the lower-casing in the canonicalisers never changes the
digest segment. -/
theorem hex_digest_is_64_lowercase_hex (L : Lib α) (msg : Bytes) :
    (GenerateHexEncodedSHA256 L msg).length = 64 ∧
    (∀ c ∈ GenerateHexEncodedSHA256 L msg,
      (48 ≤ c ∧ c ≤ 57) ∨ (97 ≤ c ∧ c ≤ 102)) ∧
    stringsToLower L.unicodeLower (GenerateHexEncodedSHA256 L msg) =
      GenerateHexEncodedSHA256 L msg ∧
    (∀ (body : BodyValue α) (enc : Bytes), encodeRequestBody L body = (enc, none) →
      stringsToLower L.unicodeLower enc = enc) := by
  refine ⟨?_, mem_hexEncodeToString _, stringsToLower_hexEncodeToString _ _, ?_⟩
  · unfold GenerateHexEncodedSHA256
    rw [length_hexEncodeToString, L.sha256Sum_length]
  · intro body enc h
    rw [(encodeRequestBody_ok h).1]
    exact stringsToLower_digestSegment L _ body

/-- The digest of the compacted scenario body under the stand-in library. -/
theorem hex_digest_is_64_lowercase_hex_witness :
    GenerateHexEncodedSHA256 demoLib (str "\x7b\"amount\":\"1000\"\x7d") =
      str "0f101112131415161718191a1b1c1d1e1f202122232425262728292a2b2c2d2e" ∧
    (GenerateHexEncodedSHA256 demoLib (str "\x7b\"amount\":\"1000\"\x7d")).length = 64 :=
  ⟨by decide,
    (hex_digest_is_64_lowercase_hex demoLib (str "\x7b\"amount\":\"1000\"\x7d")).1⟩

/-! ### The HMAC signer -/

theorem length_base64EncodeToString (b : Bytes) :
    (base64EncodeToString b).length = 4 * ((b.length + 2) / 3) := by
  induction b using base64EncodeToString.induct with
  | case1 => rfl
  | case2 a => simp [base64EncodeToString]
  | case3 a b => simp [base64EncodeToString]
  | case4 a b c rest ih =>
    simp only [base64EncodeToString, List.length_cons, ih]
    omega

/-- C13: `GenerateBase64EncodedHMAC512WithSecretKey` cannot fail. For every
secret key and every data (the empty ones included) it returns a nil error and
the base64 encoding of the 64 MAC bytes, which has 88 characters. -/
theorem hmac_signer_cannot_fail (L : Lib α) (secretKey data : Bytes) :
    GenerateBase64EncodedHMAC512WithSecretKey L secretKey data =
      (base64EncodeToString (L.hmacSum secretKey data), none) ∧
    (L.hmacSum secretKey data).length = 64 ∧
    (GenerateBase64EncodedHMAC512WithSecretKey L secretKey data).1.length = 88 := by
  have h : GenerateBase64EncodedHMAC512WithSecretKey L secretKey data =
      (base64EncodeToString (L.hmacSum secretKey data), none) := by
    unfold GenerateBase64EncodedHMAC512WithSecretKey
    rw [L.hmacWrite_nil]
  refine ⟨h, L.hmacSum_length _ _, ?_⟩
  rw [h]
  simp only
  rw [length_base64EncodeToString, L.hmacSum_length]

/-! ### Order of the fields and unambiguity -/

/-- Two texts split at the first delimiter agree part by part. -/
theorem append_cons_inj_of_not_mem {d : Nat} :
    ∀ {a b x y : Bytes}, d ∉ a → d ∉ b → a ++ d :: x = b ++ d :: y →
      a = b ∧ x = y := by
  intro a
  induction a with
  | nil =>
    intro b x y _ hb h
    cases b with
    | nil => simpa using h
    | cons b0 b =>
      simp only [List.nil_append, List.cons_append, List.cons.injEq] at h
      exact absurd (List.mem_cons.2 (Or.inl h.1)) hb
  | cons a0 a ih =>
    intro b x y ha hb h
    cases b with
    | nil =>
      simp only [List.nil_append, List.cons_append, List.cons.injEq] at h
      exact absurd (List.mem_cons.2 (Or.inl h.1.symm)) ha
    | cons b0 b =>
      simp only [List.cons_append, List.cons.injEq] at h
      have := ih (fun hm => ha (List.mem_cons_of_mem _ hm))
        (fun hm => hb (List.mem_cons_of_mem _ hm)) h.2
      exact ⟨by rw [h.1, this.1], this.2⟩

/-- The digest segment holds no `:`. -/
theorem colon_not_mem_digestSegment (L : Lib α) (body : BodyValue α) :
    58 ∉ digestSegment L body := by
  unfold digestSegment
  split
  · simp
  · intro h
    have := mem_hexEncodeToString _ 58 h
    omega

/-- C14, as the code has it: for a transaction request whose `Method` and `URL`
are different strings without `:`, the `StringToSign` of either transaction
scheme differs from the one built with `Method` and `URL` exchanged. -/
theorem field_order_sensitivity (L : Lib α) (now : Time) (rand : RandReader)
    (req : SignatureRequest α) (hM : 58 ∉ req.Method) (hU : 58 ∉ req.URL)
    (hne : req.Method ≠ req.URL) :
    (∀ resp1 resp2, GenerateSignatureForTransactions L now rand req = (some resp1, none) →
      GenerateSignatureForTransactions L now rand
        { req with Method := req.URL, URL := req.Method } = (some resp2, none) →
      resp1.StringToSign ≠ resp2.StringToSign) ∧
    (∀ resp1 resp2, GenerateSignatureForTransactionsHMAC512 L now req = (some resp1, none) →
      GenerateSignatureForTransactionsHMAC512 L now
        { req with Method := req.URL, URL := req.Method } = (some resp2, none) →
      resp1.StringToSign ≠ resp2.StringToSign) := by
  constructor
  · intro resp1 resp2 h1 h2 heq
    obtain ⟨_, _, _, _, _, hr1⟩ := GenerateSignatureForTransactions_ok h1
    obtain ⟨_, _, _, _, _, hr2⟩ := GenerateSignatureForTransactions_ok h2
    rw [hr1, hr2] at heq
    simp only [str_colon, List.append_assoc, List.singleton_append] at heq
    exact hne (append_cons_inj_of_not_mem hM hU heq).1
  · intro resp1 resp2 h1 h2 heq
    obtain ⟨_, hr1⟩ := GenerateSignatureForTransactionsHMAC512_ok h1
    obtain ⟨_, hr2⟩ := GenerateSignatureForTransactionsHMAC512_ok h2
    rw [hr1, hr2] at heq
    simp only [str_colon, List.append_assoc, List.singleton_append] at heq
    exact hne (append_cons_inj_of_not_mem hM hU heq).1

/-- The scenario request and the one with `POST` and `/v1.0/debit` exchanged. -/
theorem field_order_sensitivity_witness :
    (GenerateSignatureForTransactions demoLib demoNow demoRand
      { demoRequest with Method := demoRequest.URL, URL := demoRequest.Method }).1.map
        (fun r => r.StringToSign) =
      some (str ("/v1.0/debit:POST:" ++
        "0f101112131415161718191a1b1c1d1e1f202122232425262728292a2b2c2d2e" ++
        ":2024-01-15T10:30:00.000+07:00")) ∧
    ∀ resp2, GenerateSignatureForTransactions demoLib demoNow demoRand
        { demoRequest with Method := demoRequest.URL, URL := demoRequest.Method } =
        (some resp2, none) →
      demoResponse.StringToSign ≠ resp2.StringToSign :=
  ⟨by decide,
    fun resp2 h2 =>
      (field_order_sensitivity demoLib demoNow demoRand demoRequest (by decide) (by decide)
        (by decide)).1 demoResponse resp2 (by decide) h2⟩

/-- C14 as stated fails: `Method` `a:a` and `URL` `a` are different strings, and
both transaction schemes sign the same `StringToSign` when the two are
exchanged. -/
theorem field_order_sensitivity_counterexample :
    str "a:a" ≠ str "a" ∧
    (GenerateSignatureForTransactions demoLib demoNow demoRand
      { demoRequest with Method := str "a:a", URL := str "a" }).1.map
        (fun r => r.StringToSign) =
      some (str ("a:a:a:0f101112131415161718191a1b1c1d1e1f202122232425262728292a2b2c2d2e" ++
        ":2024-01-15T10:30:00.000+07:00")) ∧
    (GenerateSignatureForTransactions demoLib demoNow demoRand
      { demoRequest with Method := str "a", URL := str "a:a" }).1.map
        (fun r => r.StringToSign) =
      some (str ("a:a:a:0f101112131415161718191a1b1c1d1e1f202122232425262728292a2b2c2d2e" ++
        ":2024-01-15T10:30:00.000+07:00")) ∧
    (GenerateSignatureForTransactionsHMAC512 demoLib demoNow
      { demoRequest with Method := str "a:a", URL := str "a" }).1.map
        (fun r => r.StringToSign) =
    (GenerateSignatureForTransactionsHMAC512 demoLib demoNow
      { demoRequest with Method := str "a", URL := str "a:a" }).1.map
        (fun r => r.StringToSign) ∧
    (GenerateSignatureForTransactionsHMAC512 demoLib demoNow
      { demoRequest with Method := str "a:a", URL := str "a" }).1.isSome = true := by
  decide

/-! ### Validation -/

/-- C15: `Validate` returns nil exactly when the required fields of the
request's scheme are present (`TRANSACTIONS_RSA_SHA256`: `Method`, `URL`,
`PrivateKey` non-empty and `Body` non-nil; `TRANSACTIONS_HMAC_SHA512`: `Method`,
`URL`, `AccessToken`, `SecretKey` non-empty and `Body` non-nil;
`TOKEN_RSA_SHA256`: `ClientID` and `PrivateKey` non-empty); an empty or any other
type is rejected. A rejection names the first missing field in the order
`method`, `url`, `body`, then the key or token fields, and the request is left
unmodified. -/
theorem validate_iff_required_fields (r : SignatureRequest α) :
    (r.Validate.2 = none ↔
      (r.SignatureRequestType = str "TRANSACTIONS_RSA_SHA256" ∧ r.Method ≠ [] ∧
        r.URL ≠ [] ∧ r.PrivateKey ≠ [] ∧ r.Body.isNil = false) ∨
      (r.SignatureRequestType = str "TRANSACTIONS_HMAC_SHA512" ∧ r.Method ≠ [] ∧
        r.URL ≠ [] ∧ r.AccessToken ≠ [] ∧ r.SecretKey ≠ [] ∧ r.Body.isNil = false) ∨
      (r.SignatureRequestType = str "TOKEN_RSA_SHA256" ∧ r.ClientID ≠ [] ∧
        r.PrivateKey ≠ [])) ∧
    (r.SignatureRequestType ≠ str "TRANSACTIONS_RSA_SHA256" →
      r.SignatureRequestType ≠ str "TRANSACTIONS_HMAC_SHA512" →
      r.SignatureRequestType ≠ str "TOKEN_RSA_SHA256" →
      ∃ e, r.Validate.2 = some e ∧ e.Field = "signatureRequestType") ∧
    r.Validate.2.map (fun e => e.Field) = firstMissingField r ∧
    r.Validate.1 = r := by
  obtain ⟨n1, n2, n3, d1, d2, d3, e1, e2, e3⟩ := signatureType_facts
  rw [← e1, ← e2, ← e3]
  refine ⟨?_, ?_, ?_, Validate_fst r⟩
  · unfold SignatureRequest.Validate
    split_ifs <;> simp_all
  · intro h1 h2 h3
    unfold SignatureRequest.Validate
    split_ifs <;> simp_all
  · exact Validate_field r

/-- The scenario request passes; without its `URL` the rejection names `url`. -/
theorem validate_iff_required_fields_witness :
    demoRequest.Validate.2 = none ∧
    ({ demoRequest with URL := [], PrivateKey := [] } : SignatureRequest Unit).Validate.2 =
      some { Field := "url", Message := "url is required for transactions" } ∧
    firstMissingField ({ demoRequest with URL := [], PrivateKey := [] } :
      SignatureRequest Unit) = some "url" :=
  ⟨(validate_iff_required_fields demoRequest).1.2
      (Or.inl ⟨by decide, by decide, by decide, by decide, by decide⟩),
    by decide, by decide⟩

/-! ### The timestamp -/

/-- C16, as the code has it: for every instant with a year in 0..9999, calendar
and clock fields in their ranges, and a zone offset of less than 100 hours in
magnitude, `GenerateCurrentTimestamp` returns the 29 characters
`YYYY-MM-DDTHH:MM:SS.mmm±HH:MM`: each field written with its fixed number of
decimal digits, the milliseconds always with three, the sign `-` for an offset of
a minute or more west of UTC and `+` otherwise. With an offset of zero the text
ends in `+00:00`, and it never holds a `Z`. -/
theorem current_timestamp_format (now : Time) (hy0 : 0 ≤ now.year) (hy : now.year ≤ 9999)
    (hmo : now.month ≤ 12) (hd : now.day ≤ 31) (hh : now.hour ≤ 23) (hmi : now.minute ≤ 59)
    (hs : now.second ≤ 59) (hns : now.nanosecond ≤ 999999999)
    (hoff : now.offset.natAbs < 360000) :
    GenerateCurrentTimestamp now =
      fixedWidthDecimal 4 now.year.natAbs ++ [45] ++ fixedWidthDecimal 2 now.month ++ [45] ++
      fixedWidthDecimal 2 now.day ++ [84] ++ fixedWidthDecimal 2 now.hour ++ [58] ++
      fixedWidthDecimal 2 now.minute ++ [58] ++ fixedWidthDecimal 2 now.second ++ [46] ++
      fixedWidthDecimal 3 (now.nanosecond / 1000000) ++
      [if now.offset ≤ -60 then 45 else 43] ++
      fixedWidthDecimal 2 (now.offset.natAbs / 3600) ++ [58] ++
      fixedWidthDecimal 2 (now.offset.natAbs / 60 % 60) ∧
    (∀ w n, (fixedWidthDecimal w n).length = w ∧
      ∀ c ∈ fixedWidthDecimal w n, 48 ≤ c ∧ c ≤ 57) ∧
    (GenerateCurrentTimestamp now).length = 29 ∧
    (now.offset = 0 → (GenerateCurrentTimestamp now).drop 23 = str "+00:00") ∧
    90 ∉ GenerateCurrentTimestamp now := by
  have heq := formatISOMillis_eq now hy0 hy hmo hd hh hmi hs hns hoff
  have hlen : (GenerateCurrentTimestamp now).length = 29 := by
    unfold GenerateCurrentTimestamp
    rw [heq]
    simp only [List.length_append, length_fixedWidthDecimal, List.length_singleton]
  refine ⟨heq, fun w n => ⟨length_fixedWidthDecimal w n, mem_fixedWidthDecimal w n⟩, hlen,
    ?_, ?_⟩
  · intro h0
    unfold GenerateCurrentTimestamp
    rw [heq, h0]
    have hpre : (fixedWidthDecimal 4 now.year.natAbs ++ [45] ++ fixedWidthDecimal 2 now.month ++
        [45] ++ fixedWidthDecimal 2 now.day ++ [84] ++ fixedWidthDecimal 2 now.hour ++ [58] ++
        fixedWidthDecimal 2 now.minute ++ [58] ++ fixedWidthDecimal 2 now.second ++ [46] ++
        fixedWidthDecimal 3 (now.nanosecond / 1000000)).length = 23 := by
      simp only [List.length_append, length_fixedWidthDecimal, List.length_singleton]
    rw [drop_leading _ _ _ _ _ 23 hpre]
    decide
  · intro hZ
    unfold GenerateCurrentTimestamp at hZ
    rw [heq] at hZ
    simp only [List.mem_append, List.mem_singleton] at hZ
    have hdig : ∀ w n, 90 ∉ fixedWidthDecimal w n := by
      intro w n hm
      have := mem_fixedWidthDecimal w n 90 hm
      omega
    have hsign : (90 : Nat) ≠ if now.offset ≤ -60 then 45 else 43 := by
      split <;> decide
    rcases hZ with (((((((((((((((h | h) | h) | h) | h) | h) | h) | h) | h) | h) | h) | h) | h) |
      h) | h) | h) | h
    all_goals first
      | exact hdig _ _ h
      | exact hsign h
      | exact absurd h (by decide)

/-- The clock of the scenario, and the same instant in a zone without offset. -/
theorem current_timestamp_format_witness :
    GenerateCurrentTimestamp demoNow = str "2024-01-15T10:30:00.000+07:00" ∧
    GenerateCurrentTimestamp { demoNow with hour := 3, offset := 0 } =
      str "2024-01-15T03:30:00.000+00:00" ∧
    (GenerateCurrentTimestamp demoNow).length = 29 :=
  ⟨by decide, by decide,
    (current_timestamp_format demoNow (by decide) (by decide) (by decide) (by decide)
      (by decide) (by decide) (by decide) (by decide) (by decide)).2.2.1⟩

/-- C16 as stated fails for some zone offsets: in a zone 100 hours east of UTC
the year 2024 is within 0..9999 and the text has 30 characters. -/
theorem current_timestamp_format_counterexample :
    (0 : Int) ≤ ({ demoNow with offset := 360000 } : Time).year ∧
    ({ demoNow with offset := 360000 } : Time).year ≤ 9999 ∧
    GenerateCurrentTimestamp { demoNow with offset := 360000 } =
      str "2024-01-15T10:30:00.000+100:00" ∧
    (GenerateCurrentTimestamp { demoNow with offset := 360000 }).length = 30 := by
  decide

/-! ### The default key in the handler -/

/-- C17 does not hold of the code: the handler loads the default key whenever
`privateKey` is empty, whatever the type. The HMAC request of the scenario passes
`Validate` and carries no `privateKey`; it is answered with 500 "Error loading
default private key: private key file not found" when the key file does not
exist, and with 200 and its signature when the file can be read. -/
theorem hmac_request_depends_on_default_key :
    demoHmacRequest.SignatureRequestType = str "TRANSACTIONS_HMAC_SHA512" ∧
    demoHmacRequest.PrivateKey = [] ∧
    demoHmacRequest.Validate.2 = none ∧
    HandleGenerateSignature demoLib demoNow demoRand
      (.notExist "open keys/privateKey.pem: no such file or directory")
      (demoHmacRequest, none) =
      respondWithError StatusInternalServerError
        (.loadingDefaultKey (.errorString "private key file not found")) ∧
    (HandleGenerateSignature demoLib demoNow demoRand (.contents (str "-R"))
      (demoHmacRequest, none)).statusCode = 200 ∧
    (HandleGenerateSignature demoLib demoNow demoRand (.contents (str "-R"))
      (demoHmacRequest, none)).body =
      .signatureResponse (GenerateSignatureForTransactionsHMAC512 demoLib demoNow
        demoHmacRequest).1 := by
  decide

/-! ### When the HMAC generator fails -/

/-- The HMAC generator fails exactly when its body block fails. -/
theorem GenerateSignatureForTransactionsHMAC512_err_iff (L : Lib α) (now : Time)
    (req : SignatureRequest α) :
    (GenerateSignatureForTransactionsHMAC512 L now req).2 ≠ none ↔
      (encodeRequestBody L req.Body).2 ≠ none := by
  unfold GenerateSignatureForTransactionsHMAC512
  split
  · rename_i err henc
    simp [henc]
  · rename_i enc henc
    simp only
    unfold GenerateBase64EncodedHMAC512WithSecretKey
    rw [L.hmacWrite_nil]
    simp [henc]

/-- When `encodeBodyBytes` fails. -/
theorem encodeBodyBytes_err_iff (L : Lib α) (bodyBytes : Bytes) :
    (encodeBodyBytes L bodyBytes).2 ≠ none ↔
      bodyBytes ≠ [] ∧ (jsonCompact bodyBytes).2 ≠ none := by
  unfold encodeBodyBytes
  split
  · rename_i hlen
    have hne : bodyBytes ≠ [] := by
      intro h0; simp [h0] at hlen
    split
    · rename_i err hc
      simp [hc, hne]
    · rename_i m hc
      simp [hc]
  · rename_i hlen
    have h0 : bodyBytes = [] := by
      cases bodyBytes with
      | nil => rfl
      | cons a t => simp at hlen
    simp [h0]

/-- C18: `GenerateSignatureForTransactionsHMAC512` fails exactly when the body is
non-nil and either is a structured value that JSON serialisation rejects, or has
a non-zero number of bytes that `json.Compact` rejects. In particular every
non-empty raw-text body that is not a JSON text makes it fail, and the outcome
(failure or success) is the same for all requests with the same body, whatever
their other fields, empty ones included. -/
theorem hmac_generator_fails_iff (L : Lib α) (now : Time) (req : SignatureRequest α) :
    ((GenerateSignatureForTransactionsHMAC512 L now req).2 ≠ none ↔
      req.Body.isNil = false ∧
      ((∃ v, req.Body = .value v ∧ (L.jsonMarshal v).2 ≠ none) ∨
        ((∀ v, req.Body = .value v → (L.jsonMarshal v).2 = none) ∧
          serialisedBody L req.Body ≠ [] ∧
          (jsonCompact (serialisedBody L req.Body)).2 ≠ none))) ∧
    (∀ s : Bytes, s ≠ [] → (jsonCompact s).2 ≠ none →
      (GenerateSignatureForTransactionsHMAC512 L now { req with Body := .string s }).2 ≠
        none) ∧
    (∀ (now2 : Time) (req2 : SignatureRequest α), req2.Body = req.Body →
      ((GenerateSignatureForTransactionsHMAC512 L now2 req2).2 = none ↔
        (GenerateSignatureForTransactionsHMAC512 L now req).2 = none)) := by
  refine ⟨?_, ?_, ?_⟩
  · rw [GenerateSignatureForTransactionsHMAC512_err_iff]
    cases hb : req.Body with
    | nil => simp [encodeRequestBody, BodyValue.isNil]
    | string s =>
      simp only [encodeRequestBody, BodyValue.isNil, serialisedBody, true_and]
      rw [encodeBodyBytes_err_iff]
      simp
    | value v =>
      simp only [encodeRequestBody, BodyValue.isNil, serialisedBody, true_and]
      rcases hm : L.jsonMarshal v with ⟨bytes, merr⟩
      cases merr with
      | some e => simp [hm]
      | none =>
        simp only
        rw [encodeBodyBytes_err_iff]
        simp [hm]
  · intro s hs hc
    rw [GenerateSignatureForTransactionsHMAC512_err_iff]
    simp only [encodeRequestBody]
    rw [encodeBodyBytes_err_iff]
    exact ⟨hs, hc⟩
  · intro now2 req2 hbody
    have h1 := GenerateSignatureForTransactionsHMAC512_err_iff L now2 req2
    have h2 := GenerateSignatureForTransactionsHMAC512_err_iff L now req
    rw [hbody] at h1
    constructor
    · intro h
      by_contra hc
      exact (h1.2 (h2.1 hc)) h
    · intro h
      by_contra hc
      exact (h2.2 (h1.1 hc)) h

/-- The raw-text body `hello`, with every other field empty. -/
theorem hmac_generator_fails_iff_witness :
    jsonCompact (str "hello") =
      ([], some (.syntaxError (some 104) "looking for beginning of value")) ∧
    (GenerateSignatureForTransactionsHMAC512 demoLib demoNow
      { demoRequest with Body := .string (str "hello") }).2 ≠ none :=
  ⟨by decide,
    (hmac_generator_fails_iff demoLib demoNow demoRequest).2.1 (str "hello") (by decide)
      (by decide)⟩

/-! ### Unambiguity of the canonical string -/

/-- C19: the canonical string is unambiguous when the leading fields hold no
delimiter. Two successful requests of the RSA transaction scheme whose `Method`
and `URL` hold no `:` and whose `StringToSign` are equal have equal `Method`,
`URL`, digest segment and `Timestamp`; likewise for the HMAC scheme when
`AccessToken` holds no `:` either; and two successful token requests whose
`ClientID` holds no `|` and whose `StringToSign` are equal have equal `ClientID`
and `Timestamp`. Without the condition two requests with different `Method` and
`URL` can have the same `StringToSign`. -/
theorem canonical_string_unambiguous (L : Lib α) (now1 now2 : Time) (rand1 rand2 : RandReader)
    (req1 req2 : SignatureRequest α) (resp1 resp2 : SignatureResponse)
    (heq : resp1.StringToSign = resp2.StringToSign) :
    (58 ∉ req1.Method → 58 ∉ req1.URL → 58 ∉ req2.Method → 58 ∉ req2.URL →
      GenerateSignatureForTransactions L now1 rand1 req1 = (some resp1, none) →
      GenerateSignatureForTransactions L now2 rand2 req2 = (some resp2, none) →
      req1.Method = req2.Method ∧ req1.URL = req2.URL ∧
        digestSegment L req1.Body = digestSegment L req2.Body ∧
        resp1.Timestamp = resp2.Timestamp) ∧
    (58 ∉ req1.Method → 58 ∉ req1.URL → 58 ∉ req1.AccessToken →
      58 ∉ req2.Method → 58 ∉ req2.URL → 58 ∉ req2.AccessToken →
      GenerateSignatureForTransactionsHMAC512 L now1 req1 = (some resp1, none) →
      GenerateSignatureForTransactionsHMAC512 L now2 req2 = (some resp2, none) →
      req1.Method = req2.Method ∧ req1.URL = req2.URL ∧
        req1.AccessToken = req2.AccessToken ∧
        digestSegment L req1.Body = digestSegment L req2.Body ∧
        resp1.Timestamp = resp2.Timestamp) ∧
    (124 ∉ req1.ClientID → 124 ∉ req2.ClientID →
      GenerateSignatureForToken L now1 rand1 req1 = (some resp1, none) →
      GenerateSignatureForToken L now2 rand2 req2 = (some resp2, none) →
      req1.ClientID = req2.ClientID ∧ resp1.Timestamp = resp2.Timestamp) ∧
    (∃ r1 r2 : SignatureRequest Unit, r1.Method ≠ r2.Method ∧ r1.URL ≠ r2.URL ∧
      (GenerateSignatureForTransactions demoLib demoNow demoRand r1).2 = none ∧
      (GenerateSignatureForTransactions demoLib demoNow demoRand r2).2 = none ∧
      (GenerateSignatureForTransactions demoLib demoNow demoRand r1).1.map
          (fun r => r.StringToSign) =
        (GenerateSignatureForTransactions demoLib demoNow demoRand r2).1.map
          (fun r => r.StringToSign)) := by
  refine ⟨?_, ?_, ?_, ?_⟩
  · intro hM1 hU1 hM2 hU2 h1 h2
    obtain ⟨_, _, _, _, _, hr1⟩ := GenerateSignatureForTransactions_ok h1
    obtain ⟨_, _, _, _, _, hr2⟩ := GenerateSignatureForTransactions_ok h2
    rw [hr1, hr2] at heq
    simp only [str_colon, List.append_assoc, List.singleton_append] at heq
    obtain ⟨e1, heq⟩ := append_cons_inj_of_not_mem hM1 hM2 heq
    obtain ⟨e2, heq⟩ := append_cons_inj_of_not_mem hU1 hU2 heq
    obtain ⟨e3, e4⟩ := append_cons_inj_of_not_mem (colon_not_mem_digestSegment L _)
      (colon_not_mem_digestSegment L _) heq
    rw [hr1, hr2]
    exact ⟨e1, e2, e3, e4⟩
  · intro hM1 hU1 hA1 hM2 hU2 hA2 h1 h2
    obtain ⟨_, hr1⟩ := GenerateSignatureForTransactionsHMAC512_ok h1
    obtain ⟨_, hr2⟩ := GenerateSignatureForTransactionsHMAC512_ok h2
    rw [hr1, hr2] at heq
    simp only [str_colon, List.append_assoc, List.singleton_append] at heq
    obtain ⟨e1, heq⟩ := append_cons_inj_of_not_mem hM1 hM2 heq
    obtain ⟨e2, heq⟩ := append_cons_inj_of_not_mem hU1 hU2 heq
    obtain ⟨e3, heq⟩ := append_cons_inj_of_not_mem hA1 hA2 heq
    obtain ⟨e4, e5⟩ := append_cons_inj_of_not_mem (colon_not_mem_digestSegment L _)
      (colon_not_mem_digestSegment L _) heq
    rw [hr1, hr2]
    exact ⟨e1, e2, e3, e4, e5⟩
  · intro hC1 hC2 h1 h2
    obtain ⟨_, _, _, _, hr1⟩ := GenerateSignatureForToken_ok h1
    obtain ⟨_, _, _, _, hr2⟩ := GenerateSignatureForToken_ok h2
    rw [hr1, hr2] at heq
    simp only [str_bar, List.append_assoc, List.singleton_append] at heq
    obtain ⟨e1, e2⟩ := append_cons_inj_of_not_mem hC1 hC2 heq
    rw [hr1, hr2]
    exact ⟨e1, e2⟩
  · exact ⟨{ demoRequest with Method := str "a:b", URL := str "c" },
      { demoRequest with Method := str "a", URL := str "b:c" }, by decide, by decide,
      by decide, by decide, by decide⟩

/-- Two token requests: the string `client-42|2024-01-15T10:30:00.000+07:00`
determines the client and the timestamp. -/
theorem canonical_string_unambiguous_witness :
    demoRequest.ClientID = str "client-42" ∧
    demoTokenResponse.Timestamp = str "2024-01-15T10:30:00.000+07:00" ∧
    ({ demoRequest with Method := str "GET" } : SignatureRequest Unit).ClientID =
      demoRequest.ClientID :=
  ⟨by decide, by decide,
    ((canonical_string_unambiguous demoLib demoNow demoNow demoRand demoRand
      { demoRequest with Method := str "GET" } demoRequest demoTokenResponse
      demoTokenResponse rfl).2.2.1 (by decide) (by decide) (by decide) (by decide)).1⟩

/-! ### Routing in the handler -/

/-- C20, as the code has it: in `HandleGenerateSignature` a decoding failure is
answered with 400 "Invalid request body". Next, a decoded request whose
`privateKey` is empty gets the default key, and when `LoadDefaultPrivateKey`
fails it is answered with 500 "Error loading default private key: ...", whatever
its type and before `Validate` runs. Otherwise the request, with its own or the
default key, is validated: one that fails `Validate` is answered with 400 and
the validation message; one that passes is routed to the generator of its type
(`TRANSACTIONS_RSA_SHA256` to `GenerateSignatureForTransactions`,
`TRANSACTIONS_HMAC_SHA512` to `GenerateSignatureForTransactionsHMAC512`,
`TOKEN_RSA_SHA256` to `GenerateSignatureForToken`) and answered with 200 and the
response when the generator returns no error, with 500 and the error text when
it returns one. The default branch of the switch is never taken, so no answer is
"Invalid signature type", and the status is 200 exactly when a generator was
chosen and returned no error. -/
theorem handler_routes_validated_requests (L : Lib α) (now : Time) (rand : RandReader)
    (keyFile : ReadFileResult) (decoded : SignatureRequest α × Option GoError) :
    (decoded.2 ≠ none → HandleGenerateSignature L now rand keyFile decoded =
      respondWithError StatusBadRequest (.literal "Invalid request body")) ∧
    (∀ req, requestToValidate keyFile decoded = some req →
      (∀ e, req.Validate.2 = some e →
        HandleGenerateSignature L now rand keyFile decoded =
          respondWithError StatusBadRequest (.literal e.Message)) ∧
      (req.Validate.2 = none →
        ∃ out : Option SignatureResponse × Option GoError,
          routeBySignatureType L now rand req = some out ∧
          ((req.SignatureRequestType = str "TRANSACTIONS_RSA_SHA256" ∧
              out = GenerateSignatureForTransactions L now rand req) ∨
            (req.SignatureRequestType = str "TRANSACTIONS_HMAC_SHA512" ∧
              out = GenerateSignatureForTransactionsHMAC512 L now req) ∨
            (req.SignatureRequestType = str "TOKEN_RSA_SHA256" ∧
              out = GenerateSignatureForToken L now rand req)) ∧
          (out.2 = none → HandleGenerateSignature L now rand keyFile decoded =
            respondWithJSON StatusOK out.1) ∧
          (∀ err, out.2 = some err → HandleGenerateSignature L now rand keyFile decoded =
            respondWithError StatusInternalServerError (.ofError err)))) ∧
    (HandleGenerateSignature L now rand keyFile decoded).body ≠
      .errorResponse (.literal "Invalid signature type") ∧
    ((HandleGenerateSignature L now rand keyFile decoded).statusCode = 200 ↔
      ∃ req out, requestToValidate keyFile decoded = some req ∧ req.Validate.2 = none ∧
        routeBySignatureType L now rand req = some out ∧ out.2 = none) ∧
    (decoded.2 = none → decoded.1.PrivateKey = [] →
      ∀ err, (LoadDefaultPrivateKey keyFile).2 = some err →
        HandleGenerateSignature L now rand keyFile decoded =
          respondWithError StatusInternalServerError (.loadingDefaultKey err)) ∧
    (requestToValidate keyFile decoded = none ↔
      decoded.2 ≠ none ∨
        (decoded.1.PrivateKey = [] ∧ (LoadDefaultPrivateKey keyFile).2 ≠ none)) ∧
    (∀ req, requestToValidate keyFile decoded = some req →
      decoded.2 = none ∧
        ((decoded.1.PrivateKey ≠ [] ∧ req = decoded.1) ∨
          (decoded.1.PrivateKey = [] ∧ (LoadDefaultPrivateKey keyFile).2 = none ∧
            req = { decoded.1 with
              PrivateKey := (LoadDefaultPrivateKey keyFile).1 }))) := by
  obtain ⟨_, _, _, _, _, _, e1, e2, e3⟩ := signatureType_facts
  rw [← e1, ← e2, ← e3]
  refine ⟨?_, ?_, ?_, ?_, ?_, requestToValidate_none_iff keyFile decoded,
    requestToValidate_some keyFile decoded⟩
  · intro hd
    rcases decoded with ⟨r, _ | e⟩
    · exact absurd rfl hd
    · rfl
  · intro req hreq
    have hH := HandleGenerateSignature_of_request L now rand keyFile decoded req hreq
    rw [hH]
    rcases validateAndRoute_cases L now rand req with
      ⟨e, he, hresp⟩ | ⟨hv, out, h1, h2, h3, h4⟩
    · refine ⟨?_, ?_⟩
      · intro e2 he2
        rw [he] at he2
        cases he2
        exact hresp
      · intro hv
        rw [he] at hv
        cases hv
    · refine ⟨?_, ?_⟩
      · intro e he
        rw [hv] at he
        cases he
      · intro _
        exact ⟨out, h1, h2, h3, h4⟩
  · cases hreq : requestToValidate keyFile decoded with
    | none =>
      rcases HandleGenerateSignature_of_none L now rand keyFile decoded hreq with
        ⟨_, h⟩ | ⟨_, err, _, h⟩
      · rw [h]; decide
      · rw [h]; simp [respondWithError]
    | some req =>
      rw [HandleGenerateSignature_of_request L now rand keyFile decoded req hreq]
      rcases validateAndRoute_cases L now rand req with
        ⟨e, he, hresp⟩ | ⟨hv, out, h1, h2, h3, h4⟩
      · rw [hresp]
        have := Validate_message_ne req e he
        simpa [respondWithError] using this
      · cases ho : out.2 with
        | none => rw [h3 ho]; simp [respondWithJSON]
        | some err => rw [h4 err ho]; simp [respondWithError]
  · cases hreq : requestToValidate keyFile decoded with
    | none =>
      have hne : (HandleGenerateSignature L now rand keyFile decoded).statusCode ≠ 200 := by
        rcases HandleGenerateSignature_of_none L now rand keyFile decoded hreq with
          ⟨_, h⟩ | ⟨_, err, _, h⟩
        · rw [h]; decide
        · rw [h]; simp [respondWithError, StatusInternalServerError]
      constructor
      · intro h; exact absurd h hne
      · rintro ⟨req, out, h, _⟩
        cases h
    | some req =>
      rw [HandleGenerateSignature_of_request L now rand keyFile decoded req hreq]
      rcases validateAndRoute_cases L now rand req with
        ⟨e, he, hresp⟩ | ⟨hv, out, h1, h2, h3, h4⟩
      · rw [hresp]
        constructor
        · intro h; simp [respondWithError, StatusBadRequest] at h
        · rintro ⟨req2, out, h, hv2, _⟩
          cases h
          rw [he] at hv2
          cases hv2
      · cases ho : out.2 with
        | none =>
          rw [h3 ho]
          exact ⟨fun _ => ⟨req, out, rfl, hv, h1, ho⟩, fun _ => rfl⟩
        | some err =>
          rw [h4 err ho]
          constructor
          · intro h; simp [respondWithError, StatusInternalServerError] at h
          · rintro ⟨req2, out2, h, _, hr, ho2⟩
            cases h
            rw [h1] at hr
            cases hr
            rw [ho] at ho2
            cases ho2
  · intro hd hk err hl
    have hnone : requestToValidate keyFile decoded = none :=
      (requestToValidate_none_iff keyFile decoded).2
        (Or.inr ⟨hk, by rw [hl]; exact Option.some_ne_none err⟩)
    rcases HandleGenerateSignature_of_none L now rand keyFile decoded hnone with
      ⟨hne, _⟩ | ⟨_, err2, hl2, h⟩
    · exact absurd hd hne
    · rw [hl] at hl2
      cases hl2
      exact h

/-- The scenario request, posted with its own key, and posted without a key
while the key file holds one: status 200 and the response of
`GenerateSignatureForTransactions`. -/
theorem handler_routes_validated_requests_witness :
    requestToValidate (.notExist "open keys/privateKey.pem: no such file or directory")
      (demoRequest, none) = some demoRequest ∧
    HandleGenerateSignature demoLib demoNow demoRand
      (.notExist "open keys/privateKey.pem: no such file or directory") (demoRequest, none) =
      respondWithJSON StatusOK (some demoResponse) ∧
    HandleGenerateSignature demoLib demoNow demoRand (.contents (str "-R"))
      ({ demoRequest with PrivateKey := [] }, none) =
      respondWithJSON StatusOK (some demoResponse) ∧
    (HandleGenerateSignature demoLib demoNow demoRand
      (.notExist "open keys/privateKey.pem: no such file or directory")
      (demoRequest, none)).statusCode = 200 :=
  ⟨by decide, by decide, by decide,
    (handler_routes_validated_requests demoLib demoNow demoRand
      (.notExist "open keys/privateKey.pem: no such file or directory")
      (demoRequest, none)).2.2.2.1.2
      ⟨demoRequest, (some demoResponse, none), by decide, by decide, by decide, rfl⟩⟩

/-- C20 as stated fails while the key file does not exist. The HMAC request of
the scenario, posted without `privateKey`, passes `Validate` and its generator
returns no error, yet it is answered with 500 and reaches no generator; the same
request without its `signatureRequestType` fails `Validate`, yet it is answered
with 500 and not with 400. -/
theorem handler_routes_validated_requests_counterexample :
    demoHmacRequest.Validate.2 = none ∧
    (GenerateSignatureForTransactionsHMAC512 demoLib demoNow demoHmacRequest).2 = none ∧
    HandleGenerateSignature demoLib demoNow demoRand
      (.notExist "open keys/privateKey.pem: no such file or directory")
      (demoHmacRequest, none) =
      { contentType := "application/json", statusCode := 500,
        body := .errorResponse
          (.loadingDefaultKey (.errorString "private key file not found")) } ∧
    ({ demoHmacRequest with SignatureRequestType := [] } :
      SignatureRequest Unit).Validate.2 =
      some { Field := "signatureRequestType",
             Message := "signatureRequestType is required" } ∧
    HandleGenerateSignature demoLib demoNow demoRand
      (.notExist "open keys/privateKey.pem: no such file or directory")
      ({ demoHmacRequest with SignatureRequestType := [] }, none) =
      { contentType := "application/json", statusCode := 500,
        body := .errorResponse
          (.loadingDefaultKey (.errorString "private key file not found")) } := by
  decide

end Claims

end SignatureGen
